import Mathlib

/-!
# The memory debugger shim of `src/debugger/memory-debugger.c`

A shallow embedding of the watchpoint matcher `_checkWatchpoints`, of the nine
`DebuggerShim_*` functions generated by the `CREATE_*` macros, and of
`DebuggerInstallMemoryShim` / `DebuggerRemoveMemoryShim`.

Conventions of the embedding.

* `uint32_t` values are natural numbers, `int` values are integers; every
  conversion between the two is written out (`toU32`, `toI32`).
* A function pointer is a value of `FnPtr`.  What a pointer does when it is
  called is not part of this file of the program: it is given by a parameter
  `R : Routines σ`, a family of total state transformers on the machine state
  `σ` (registers, memory contents, run state of the debugger).
* The access tables, the component array and the watchpoint lists live in
  `ARMCore`; the routines called through pointers and `DebuggerEnter` act on
  the machine state only (the watchpoint registry is mutated only between
  instruction steps).
* There is one processor: `debugger->cpu` is the core the shim was called on.
* Every call through a pointer, every `DebuggerEnter` and every entry into
  `_checkWatchpoints` is recorded, in order, in `Machine.trace`.
-/

namespace MemoryDebugger

/-! ## Machine integers -/

/-- Conversion of an integer value to `uint32_t`: reduction modulo 2^32. -/
def toU32 (x : Int) : Nat := (x % 4294967296).toNat

/-- Conversion of an integer value to a 32-bit `int` (two's complement wrap). -/
def toI32 (x : Int) : Int := (x + 2147483648) % 4294967296 - 2147483648

/-- Conversion of an integer value to `int16_t` (two's complement wrap). -/
def toI16 (x : Int) : Int := (x + 32768) % 65536 - 32768

/-- Conversion of an integer value to `int8_t` (two's complement wrap). -/
def toI8 (x : Int) : Int := (x + 128) % 256 - 128

/-- The operator `~` on an `int` in two's complement. -/
def bitNot (x : Int) : Int := -x - 1

/-! ## Declarations of the headers -/

/-- Modelled from the spec: `enum WatchpointType` is declared in `debugger.h`,
which is not part of the sources at hand.  The spec (section 3) makes the type
of a watchpoint a set over READ and WRITE; the set is a bit set and WRITE is
one of its two bits. -/
def WATCHPOINT_WRITE : Nat := 1

/-- Modelled from the spec: the READ bit of `enum WatchpointType` (see
`WATCHPOINT_WRITE`). -/
def WATCHPOINT_READ : Nat := 2

/-- Modelled from the spec: the entry reason `WATCHPOINT` of the debugger entry
interface (section 6); `enum DebuggerEntryReason` is declared in `debugger.h`. -/
def DEBUGGER_ENTER_WATCHPOINT : Nat := 3

/-- Modelled from the spec: the tag by which the component scan recognises the
debugger (section 9, lookup by type tag); the constant is declared in
`debugger.h`. -/
def DEBUGGER_ID : Nat := 0xDEADBEEF

/-- Modelled from the spec: the flag of `enum LSMDirection` (declared in
`arm.h`) that says whether a block transfer steps "before" rather than "after"
(section 4.1). -/
def LSM_B : Nat := 1

/-- Modelled from the spec: the flag of `enum LSMDirection` that says whether a
block transfer decrements rather than increments (section 4.1). -/
def LSM_D : Nat := 2

/-- Modelled from the spec: `popcount32` is defined in `util/math.h`; it counts
the set bits of the (32-bit) register mask (specification, section 4.1). -/
def popcount32 (bits : Nat) : Nat :=
  ((List.range 32).filter (fun i => bits.testBit i)).length

/-- The code pointers that can be stored in an access table: the nine shims of
this file, and any other function of the program, named by a number. -/
inductive FnPtr where
  | DebuggerShim_load32
  | DebuggerShim_load16
  | DebuggerShim_load8
  | DebuggerShim_store32
  | DebuggerShim_store16
  | DebuggerShim_store8
  | DebuggerShim_loadMultiple
  | DebuggerShim_storeMultiple
  | DebuggerShim_setActiveRegion
  | fn (id : Nat)
  deriving DecidableEq, Repr

/-- Modelled from the spec: `struct ARMMemory` is declared in `arm.h`.  It
holds the nine operation bindings of section 6; whatever else the structure
holds is the field `rest`. -/
structure ARMMemory (ρ : Type) where
  load32 : FnPtr
  load16 : FnPtr
  load8 : FnPtr
  store32 : FnPtr
  store16 : FnPtr
  store8 : FnPtr
  loadMultiple : FnPtr
  storeMultiple : FnPtr
  setActiveRegion : FnPtr
  rest : ρ
  deriving DecidableEq, Repr

/-- Modelled from the spec: `struct DebugWatchpoint` (section 3): an address
and a type set. -/
structure DebugWatchpoint where
  address : Nat
  type : Nat
  deriving DecidableEq, Repr

/-- Modelled from the spec: `struct DebuggerEntryInfo` (section 3). -/
structure DebuggerEntryInfo where
  address : Nat
  oldValue : Nat
  newValue : Nat
  watchType : Nat
  accessType : Nat
  deriving DecidableEq, Repr

/-- The fields of `struct Debugger` that this file reads or writes; `id` is the
`id` of the component header the structure starts with. -/
structure Debugger (ρ : Type) where
  id : Nat
  originalMemory : ARMMemory ρ
  watchpoints : List DebugWatchpoint
  deriving DecidableEq, Repr

/-- The fields of `struct ARMCore` that this file reads or writes, together
with the objects its component pointers reach: `components` is the array
`cpu->components[0 .. numComponents)` of addresses, and `object p` is the
object at address `p` read as a `struct Debugger` (the cast of
`FIND_DEBUGGER`). -/
structure ARMCore (ρ : Type) where
  memory : ARMMemory ρ
  components : List Nat
  object : Nat → Debugger ρ

/-! ## The machine and what is observed of a run -/

/-- What a run does, in order. -/
inductive Event where
  /-- entry into `_checkWatchpoints(debugger, address, &info, type, newValue, width)` -/
  | check (address type newValue : Nat) (width : Int)
  /-- the call `DebuggerEnter(debugger, reason, &info)` -/
  | enter (debugger reason : Nat) (info : DebuggerEntryInfo)
  /-- a call `f(cpu, address, cycleCounter)` through a load pointer -/
  | load (f : FnPtr) (address cycleCounter : Nat)
  /-- a call `f(cpu, address, value, cycleCounter)` through a store pointer -/
  | store (f : FnPtr) (address : Nat) (value : Int) (cycleCounter : Nat)
  /-- a call `f(cpu, address, mask, direction, cycleCounter)` through a block pointer -/
  | multiple (f : FnPtr) (address : Nat) (mask : Int) (direction cycleCounter : Nat)
  /-- a call `f(cpu, address)` through the region pointer -/
  | region (f : FnPtr) (address : Nat)
  deriving DecidableEq, Repr

/-- What the functions behind the code pointers, and `DebuggerEnter`, do to the
machine state.  A cycle counter is passed as the pointer it is (0 is the null
pointer); the counter itself is part of the machine state. -/
structure Routines (σ : Type) where
  load : FnPtr → σ → Nat → Nat → Nat × σ
  store : FnPtr → σ → Nat → Int → Nat → σ
  multiple : FnPtr → σ → Nat → Int → Nat → Nat → Nat × σ
  region : FnPtr → σ → Nat → σ
  enter : σ → Nat → Nat → DebuggerEntryInfo → σ

/-- The machine state and the events so far. -/
structure Machine (σ : Type) where
  state : σ
  trace : List Event
  deriving DecidableEq, Repr

variable {σ ρ : Type}

/-- The call `f(cpu, address, cycleCounter)` of a load pointer. -/
def callLoad (R : Routines σ) (f : FnPtr) (address cycleCounter : Nat) (m : Machine σ) :
    Nat × Machine σ :=
  ((R.load f m.state address cycleCounter).1,
   { state := (R.load f m.state address cycleCounter).2,
     trace := m.trace ++ [Event.load f address cycleCounter] })

/-- The call `f(cpu, address, value, cycleCounter)` of a store pointer. -/
def callStore (R : Routines σ) (f : FnPtr) (address : Nat) (value : Int) (cycleCounter : Nat)
    (m : Machine σ) : Machine σ :=
  { state := R.store f m.state address value cycleCounter,
    trace := m.trace ++ [Event.store f address value cycleCounter] }

/-- The call `f(cpu, address, mask, direction, cycleCounter)` of a block-transfer pointer. -/
def callMultiple (R : Routines σ) (f : FnPtr) (address : Nat) (mask : Int)
    (direction cycleCounter : Nat) (m : Machine σ) : Nat × Machine σ :=
  ((R.multiple f m.state address mask direction cycleCounter).1,
   { state := (R.multiple f m.state address mask direction cycleCounter).2,
     trace := m.trace ++ [Event.multiple f address mask direction cycleCounter] })

/-- The call `f(cpu, address)` of the region pointer. -/
def callRegion (R : Routines σ) (f : FnPtr) (address : Nat) (m : Machine σ) : Machine σ :=
  { state := R.region f m.state address,
    trace := m.trace ++ [Event.region f address] }

/-- Modelled from the spec: `DebuggerEnter` is defined in `debugger.c`; it is
the external entry dispatcher of section 4.3.  Its effect on the machine is
`R.enter`, and the call is recorded. -/
def DebuggerEnter (R : Routines σ) (debugger reason : Nat) (info : DebuggerEntryInfo)
    (m : Machine σ) : Machine σ :=
  { state := R.enter m.state debugger reason info,
    trace := m.trace ++ [Event.enter debugger reason info] }

/-! ## `_checkWatchpoints` -/

/-- The test of line 97 for one watchpoint; `width` is the width already
decremented.  `watchpoint->address ^ address` is unsigned, so `~width` is
converted to `uint32_t` before the `&`. -/
def watchpointMatches (watchpoint : DebugWatchpoint) (address type : Nat) (width : Int) : Bool :=
  ((watchpoint.address ^^^ address) &&& toU32 (bitNot width) == 0) && (watchpoint.type &&& type != 0)

/-- The `switch (width + 1)` of lines 98-108: the old value is read through
`debugger->originalMemory` with a null cycle counter. -/
def readOldValue (R : Routines σ) (debugger : Debugger ρ) (address : Nat)
    (info : DebuggerEntryInfo) (width : Int) (m : Machine σ) : DebuggerEntryInfo × Machine σ :=
  if width + 1 = 1 then
    ({ info with oldValue := (callLoad R debugger.originalMemory.load8 address 0 m).1 },
      (callLoad R debugger.originalMemory.load8 address 0 m).2)
  else if width + 1 = 2 then
    ({ info with oldValue := (callLoad R debugger.originalMemory.load16 address 0 m).1 },
      (callLoad R debugger.originalMemory.load16 address 0 m).2)
  else if width + 1 = 4 then
    ({ info with oldValue := (callLoad R debugger.originalMemory.load32 address 0 m).1 },
      (callLoad R debugger.originalMemory.load32 address 0 m).2)
  else (info, m)

/-- The loop of lines 95-116 over the watchpoints not yet visited; `width` is
the width already decremented. -/
def checkLoop (R : Routines σ) (debugger : Debugger ρ) (address : Nat) (type newValue : Nat)
    (width : Int) : List DebugWatchpoint → DebuggerEntryInfo → Machine σ →
    Bool × DebuggerEntryInfo × Machine σ
  | [], info, m => (false, info, m)
  | watchpoint :: later, info, m =>
    if watchpointMatches watchpoint address type width then
      (true,
       { (readOldValue R debugger address info width m).1 with
           newValue := newValue
           address := address
           watchType := watchpoint.type
           accessType := type },
       (readOldValue R debugger address info width m).2)
    else checkLoop R debugger address type newValue width later info m

/-- The function `_checkWatchpoints` (lines 91-117).  `info` is the object the
pointer argument points to; it is returned as the function leaves it. -/
def _checkWatchpoints (R : Routines σ) (debugger : Debugger ρ) (address : Nat)
    (info : DebuggerEntryInfo) (type newValue : Nat) (width : Int) (m : Machine σ) :
    Bool × DebuggerEntryInfo × Machine σ :=
  checkLoop R debugger address type newValue (width - 1) debugger.watchpoints info
    { m with trace := m.trace ++ [Event.check address type newValue width] }

/-! ## The shims -/

/-- The macro `FIND_DEBUGGER` (lines 16-26): the first component whose `id` is
`DEBUGGER_ID`, or the null pointer (`none`) when the scan finds none. -/
def FIND_DEBUGGER (cpu : ARMCore ρ) : Option Nat :=
  cpu.components.find? (fun c => (cpu.object c).id == DEBUGGER_ID)

/-- The statement shared by the three watchpoint macros:
`if (_checkWatchpoints(debugger, address, &info, type, newValue, width))
DebuggerEnter(debugger, DEBUGGER_ENTER_WATCHPOINT, &info);`. -/
def checkAndEnter (R : Routines σ) (cpu : ARMCore ρ) (debugger : Nat) (address : Nat)
    (info : DebuggerEntryInfo) (type newValue : Nat) (width : Int) (m : Machine σ) : Machine σ :=
  if (_checkWatchpoints R (cpu.object debugger) address info type newValue width m).1 then
    DebuggerEnter R debugger DEBUGGER_ENTER_WATCHPOINT
      (_checkWatchpoints R (cpu.object debugger) address info type newValue width m).2.1
      (_checkWatchpoints R (cpu.object debugger) address info type newValue width m).2.2
  else (_checkWatchpoints R (cpu.object debugger) address info type newValue width m).2.2

/-- The macro `CREATE_SHIM` (lines 28-33) at `setActiveRegion` (line 89).
A null `debugger` is dereferenced when the scan finds no debugger: the call
has no result. -/
def DebuggerShim_setActiveRegion (R : Routines σ) (cpu : ARMCore ρ) (address : Nat)
    (m : Machine σ) : Option (Machine σ) :=
  match FIND_DEBUGGER cpu with
  | none => none
  | some debugger =>
    some (callRegion R (cpu.object debugger).originalMemory.setActiveRegion address m)

/-- The macro `CREATE_WATCHPOINT_READ_SHIM` (lines 35-44).  `info` is the
indeterminate initial content of the local variable `info`. -/
def CREATE_WATCHPOINT_READ_SHIM (NAME : ARMMemory ρ → FnPtr) (WIDTH : Int) (R : Routines σ)
    (cpu : ARMCore ρ) (address cycleCounter : Nat) (info : DebuggerEntryInfo) (m : Machine σ) :
    Option (Nat × Machine σ) :=
  match FIND_DEBUGGER cpu with
  | none => none
  | some debugger =>
    some (callLoad R (NAME (cpu.object debugger).originalMemory) address cycleCounter
      (checkAndEnter R cpu debugger address info WATCHPOINT_READ 0 WIDTH m))

/-- The macro `CREATE_WATCHPOINT_WRITE_SHIM` (lines 46-55).  The signed `value`
is converted to the `uint32_t` parameter `newValue` of `_checkWatchpoints`. -/
def CREATE_WATCHPOINT_WRITE_SHIM (NAME : ARMMemory ρ → FnPtr) (WIDTH : Int) (R : Routines σ)
    (cpu : ARMCore ρ) (address : Nat) (value : Int) (cycleCounter : Nat)
    (info : DebuggerEntryInfo) (m : Machine σ) : Option (Machine σ) :=
  match FIND_DEBUGGER cpu with
  | none => none
  | some debugger =>
    some (callStore R (NAME (cpu.object debugger).originalMemory) address value cycleCounter
      (checkAndEnter R cpu debugger address info WATCHPOINT_WRITE (toU32 value) WIDTH m))

/-- The value of `base` after lines 61-70.  `base -= (popcount << 2) - 4` is
computed in `uint32_t` and converted back to `int`. -/
def lsmBase (address : Nat) (popcount : Nat) (direction : Nat) : Int :=
  let offset : Int := if direction &&& LSM_D ≠ 0 then -4 else 4
  let base : Int := toI32 address
  let base : Int :=
    if direction &&& LSM_D ≠ 0 then
      toI32 ((toU32 base : Int) - (toU32 (((popcount <<< 2 : Nat) : Int) - 4) : Int))
    else base
  if direction &&& LSM_B ≠ 0 then toI32 (base + offset) else base

/-- The machine after the first `n` rounds of the loop of lines 72-77, in which
`i` runs upwards from 0; `base + 4 * i` is computed in `uint32_t`, and `info`
is the indeterminate initial content of the local variable of each round. -/
def lsmLoop (ACCESS_TYPE : Nat) (R : Routines σ) (cpu : ARMCore ρ) (debugger : Nat) (base : Int)
    (info : DebuggerEntryInfo) (n : Nat) (m : Machine σ) : Machine σ :=
  (List.range n).foldl
    (fun (m : Machine σ) (i : Nat) =>
      checkAndEnter R cpu debugger (toU32 (base + 4 * (i : Int))) info ACCESS_TYPE 0 4 m)
    m

/-- The macro `CREATE_MULTIPLE_WATCHPOINT_SHIM` (lines 57-79): the loop runs
`popcount` rounds, then the original block transfer is called. -/
def CREATE_MULTIPLE_WATCHPOINT_SHIM (NAME : ARMMemory ρ → FnPtr) (ACCESS_TYPE : Nat)
    (R : Routines σ) (cpu : ARMCore ρ) (address : Nat) (mask : Int)
    (direction cycleCounter : Nat) (info : DebuggerEntryInfo) (m : Machine σ) :
    Option (Nat × Machine σ) :=
  match FIND_DEBUGGER cpu with
  | none => none
  | some debugger =>
    let popcount := popcount32 (toU32 mask)
    let base := lsmBase address popcount direction
    some (callMultiple R (NAME (cpu.object debugger).originalMemory) address mask direction
      cycleCounter (lsmLoop ACCESS_TYPE R cpu debugger base info popcount m))

/-- Line 81. -/
def DebuggerShim_load32 (R : Routines σ) (cpu : ARMCore ρ) (address cycleCounter : Nat)
    (info : DebuggerEntryInfo) (m : Machine σ) : Option (Nat × Machine σ) :=
  CREATE_WATCHPOINT_READ_SHIM (fun t => t.load32) 4 R cpu address cycleCounter info m

/-- Line 82. -/
def DebuggerShim_load16 (R : Routines σ) (cpu : ARMCore ρ) (address cycleCounter : Nat)
    (info : DebuggerEntryInfo) (m : Machine σ) : Option (Nat × Machine σ) :=
  CREATE_WATCHPOINT_READ_SHIM (fun t => t.load16) 2 R cpu address cycleCounter info m

/-- Line 83. -/
def DebuggerShim_load8 (R : Routines σ) (cpu : ARMCore ρ) (address cycleCounter : Nat)
    (info : DebuggerEntryInfo) (m : Machine σ) : Option (Nat × Machine σ) :=
  CREATE_WATCHPOINT_READ_SHIM (fun t => t.load8) 1 R cpu address cycleCounter info m

/-- Line 84.  The parameter `value` is an `int32_t`: the argument of the call is
converted to it, and it is that converted value that the shim hands to
`_checkWatchpoints` and to the original `store32`. -/
def DebuggerShim_store32 (R : Routines σ) (cpu : ARMCore ρ) (address : Nat) (value : Int)
    (cycleCounter : Nat) (info : DebuggerEntryInfo) (m : Machine σ) : Option (Machine σ) :=
  CREATE_WATCHPOINT_WRITE_SHIM (fun t => t.store32) 4 R cpu address (toI32 value) cycleCounter info
    m

/-- Line 85.  The parameter `value` is an `int16_t`: the argument of the call is
converted to it, and it is that converted value that the shim hands to
`_checkWatchpoints` and to the original `store16`. -/
def DebuggerShim_store16 (R : Routines σ) (cpu : ARMCore ρ) (address : Nat) (value : Int)
    (cycleCounter : Nat) (info : DebuggerEntryInfo) (m : Machine σ) : Option (Machine σ) :=
  CREATE_WATCHPOINT_WRITE_SHIM (fun t => t.store16) 2 R cpu address (toI16 value) cycleCounter info
    m

/-- Line 86.  The parameter `value` is an `int8_t`: the argument of the call is
converted to it, and it is that converted value that the shim hands to
`_checkWatchpoints` and to the original `store8`. -/
def DebuggerShim_store8 (R : Routines σ) (cpu : ARMCore ρ) (address : Nat) (value : Int)
    (cycleCounter : Nat) (info : DebuggerEntryInfo) (m : Machine σ) : Option (Machine σ) :=
  CREATE_WATCHPOINT_WRITE_SHIM (fun t => t.store8) 1 R cpu address (toI8 value) cycleCounter info
    m

/-- Line 87. -/
def DebuggerShim_loadMultiple (R : Routines σ) (cpu : ARMCore ρ) (address : Nat) (mask : Int)
    (direction cycleCounter : Nat) (info : DebuggerEntryInfo) (m : Machine σ) :
    Option (Nat × Machine σ) :=
  CREATE_MULTIPLE_WATCHPOINT_SHIM (fun t => t.loadMultiple) WATCHPOINT_READ R cpu address mask
    direction cycleCounter info m

/-- Line 88. -/
def DebuggerShim_storeMultiple (R : Routines σ) (cpu : ARMCore ρ) (address : Nat) (mask : Int)
    (direction cycleCounter : Nat) (info : DebuggerEntryInfo) (m : Machine σ) :
    Option (Nat × Machine σ) :=
  CREATE_MULTIPLE_WATCHPOINT_SHIM (fun t => t.storeMultiple) WATCHPOINT_WRITE R cpu address mask
    direction cycleCounter info m

/-! ## Installing and removing the shim -/

/-- The function `DebuggerInstallMemoryShim` (lines 119-130); `debugger` is the
address of the debugger, and `debugger->cpu` is `cpu`. -/
def DebuggerInstallMemoryShim (cpu : ARMCore ρ) (debugger : Nat) : ARMCore ρ :=
  { cpu with
    object := Function.update cpu.object debugger
      { cpu.object debugger with originalMemory := cpu.memory }
    memory :=
      { cpu.memory with
        store32 := FnPtr.DebuggerShim_store32
        store16 := FnPtr.DebuggerShim_store16
        store8 := FnPtr.DebuggerShim_store8
        load32 := FnPtr.DebuggerShim_load32
        load16 := FnPtr.DebuggerShim_load16
        load8 := FnPtr.DebuggerShim_load8
        storeMultiple := FnPtr.DebuggerShim_storeMultiple
        loadMultiple := FnPtr.DebuggerShim_loadMultiple
        setActiveRegion := FnPtr.DebuggerShim_setActiveRegion } }

/-- The function `DebuggerRemoveMemoryShim` (lines 132-142). -/
def DebuggerRemoveMemoryShim (cpu : ARMCore ρ) (debugger : Nat) : ARMCore ρ :=
  { cpu with
    memory :=
      { cpu.memory with
        store32 := (cpu.object debugger).originalMemory.store32
        store16 := (cpu.object debugger).originalMemory.store16
        store8 := (cpu.object debugger).originalMemory.store8
        load32 := (cpu.object debugger).originalMemory.load32
        load16 := (cpu.object debugger).originalMemory.load16
        load8 := (cpu.object debugger).originalMemory.load8
        storeMultiple := (cpu.object debugger).originalMemory.storeMultiple
        loadMultiple := (cpu.object debugger).originalMemory.loadMultiple
        setActiveRegion := (cpu.object debugger).originalMemory.setActiveRegion } }

/-! ## The expected outcome of a watchpoint check, in closed form -/

/-- The load binding of width `W` (1, 2 or 4 bytes) of an access table. -/
def ARMMemory.loadOfWidth (t : ARMMemory ρ) (W : Nat) : FnPtr :=
  if W = 1 then t.load8 else if W = 2 then t.load16 else t.load32

/-- The match condition of section 4.2 of the specification for an access of
`W` bytes, with the complement taken on 32 bits. -/
def matchCondition (w : DebugWatchpoint) (address type W : Nat) : Bool :=
  ((w.address ^^^ address) &&& (4294967295 - (W - 1)) == 0) && (w.type &&& type != 0)

/-- The entry info of a hit. -/
def hitInfo (address oldValue newValue watchType accessType : Nat) : DebuggerEntryInfo where
  address := address
  oldValue := oldValue
  newValue := newValue
  watchType := watchType
  accessType := accessType

/-- The machine after a check that does not hit: the check is the only event. -/
def missOutcome (address type newValue : Nat) (W : Nat) (m : Machine σ) : Machine σ :=
  { state := m.state
    trace := m.trace ++ [Event.check address type newValue (W : Int)] }

/-- The machine after a check that hits a watchpoint of type `watchType`: the
check, the read of the old value through the load pointer `f` with a null cycle
counter, and one `DebuggerEnter` with the entry info. -/
def hitOutcome (R : Routines σ) (debugger : Nat) (f : FnPtr) (address type newValue : Nat)
    (W : Nat) (watchType : Nat) (m : Machine σ) : Machine σ :=
  { state :=
      R.enter (R.load f m.state address 0).2 debugger DEBUGGER_ENTER_WATCHPOINT
        (hitInfo address (R.load f m.state address 0).1 newValue watchType type)
    trace :=
      m.trace ++
        [Event.check address type newValue (W : Int),
         Event.load f address 0,
         Event.enter debugger DEBUGGER_ENTER_WATCHPOINT
           (hitInfo address (R.load f m.state address 0).1 newValue watchType type)] }

/-- The machine after the check of one access against the watchpoints of a
debugger: the outcome of a hit on the first watchpoint in registration order
that satisfies the match condition, the outcome of a miss when there is none. -/
def checkOutcome (R : Routines σ) (d : Debugger ρ) (debugger : Nat) (address type newValue : Nat)
    (W : Nat) (m : Machine σ) : Machine σ :=
  match d.watchpoints.find? (fun w => matchCondition w address type W) with
  | none => missOutcome address type newValue W m
  | some w =>
    hitOutcome R debugger (d.originalMemory.loadOfWidth W) address type newValue W w.type m

/-- Whether some watchpoint of the list satisfies the match condition for an
access of `W` bytes. -/
def anyMatch (wps : List DebugWatchpoint) (address type W : Nat) : Bool :=
  wps.any (fun w => matchCondition w address type W)

/-- The word address number `i` of a block transfer of `k` words, by the rule
of the four addressing modes, modulo 2^32. -/
def blockTransferAddress (address k direction i : Nat) : Nat :=
  if direction &&& LSM_D = 0 then
    if direction &&& LSM_B = 0 then toU32 ((address : Int) + 4 * i)
    else toU32 ((address : Int) + 4 + 4 * i)
  else
    if direction &&& LSM_B = 0 then toU32 ((address : Int) - 4 * k + 4 + 4 * i)
    else toU32 ((address : Int) - 4 * k + 4 * i)

/-- The checks recorded in a trace, in order: address, access type, new value, width. -/
def checksOf (t : List Event) : List (Nat × Nat × Nat × Int) :=
  t.filterMap (fun e =>
    match e with
    | Event.check address type newValue width => some (address, type, newValue, width)
    | _ => none)

/-- The debugger entries recorded in a trace, in order. -/
def entriesOf (t : List Event) : List (Nat × Nat × DebuggerEntryInfo) :=
  t.filterMap (fun e =>
    match e with
    | Event.enter debugger reason info => some (debugger, reason, info)
    | _ => none)

/-! ## A small machine on which the definitions are evaluated -/

/-- The state of the small machine: sixteen registers and the memory cells
written so far, the latest binding first. -/
structure Toy where
  gprs : List Nat
  cells : List (Nat × Nat)
  deriving DecidableEq, Repr

/-- The word the small machine holds at an address (0 where nothing was written). -/
def Toy.read (s : Toy) (address : Nat) : Nat := (s.cells.lookup address).getD 0

/-- The block store of the small machine: the registers selected by `mask`, in
ascending order, go to the ascending word addresses that start at `low`. -/
def Toy.storeRegisters (s : Toy) (mask : Nat) (low : Nat) : Toy :=
  { s with
    cells :=
      (((List.range 16).filter (fun r => mask.testBit r)).enum.map
        (fun p => ((low + 4 * p.1) % 4294967296, s.gprs.getD p.2 0))).reverse ++ s.cells }

/-- The routines of the small machine.  The functions `fn 0` .. `fn 8` are its
own `load32`, `load16`, `load8`, `store32`, `store16`, `store8`,
`loadMultiple`, `storeMultiple` and `setActiveRegion`; `fn 7` stores the
selected registers, every other block routine leaves the cells alone; all of
them return the address after the transfer.  `DebuggerEnter` leaves the state
alone. -/
def toyRoutines : Routines Toy where
  load := fun _ s address _ => (s.read address, s)
  store := fun _ s address value _ => { s with cells := (address, toU32 value) :: s.cells }
  multiple := fun f s address mask direction _ =>
    let k := popcount32 (toU32 mask)
    (if direction &&& LSM_D ≠ 0 then toU32 ((address : Int) - 4 * k) else toU32 ((address : Int) + 4 * k),
     if f = FnPtr.fn 7 then
       s.storeRegisters (toU32 mask) (toU32 (lsmBase address k direction))
     else s)
  region := fun _ s _ => s
  enter := fun s _ _ _ => s

/-- The access table of the small machine. -/
def toyMemory : ARMMemory Unit where
  load32 := FnPtr.fn 0
  load16 := FnPtr.fn 1
  load8 := FnPtr.fn 2
  store32 := FnPtr.fn 3
  store16 := FnPtr.fn 4
  store8 := FnPtr.fn 5
  loadMultiple := FnPtr.fn 6
  storeMultiple := FnPtr.fn 7
  setActiveRegion := FnPtr.fn 8
  rest := ()

/-- A debugger that holds the table of the small machine and the given watchpoints. -/
def toyDebugger (watchpoints : List DebugWatchpoint) : Debugger Unit where
  id := DEBUGGER_ID
  originalMemory := toyMemory
  watchpoints := watchpoints

/-- A core with two components: an object at address 1 that is not a debugger,
and the debugger at address 2. -/
def toyCore (watchpoints : List DebugWatchpoint) : ARMCore Unit where
  memory := toyMemory
  components := [1, 2]
  object := fun p => if p = 2 then toyDebugger watchpoints else { toyDebugger [] with id := 0 }

/-- The small machine at the start of a run: registers `r0 = 5`, `r1 = 6`,
`r2 = 7`, the word `0xAABBCCDD` at `0x1002`, the word `9` at `0x3000`, and no
event yet. -/
def toyStart : Machine Toy where
  state :=
    { gprs := [5, 6, 7, 0, 0, 0, 0, 0, 0, 0, 0, 0, 0, 0, 0, 0]
      cells := [(0x1002, 0xAABBCCDD), (0x3000, 9)] }
  trace := []

/-- Some content of an entry info that was never written. -/
def toyInfo : DebuggerEntryInfo where
  address := 77
  oldValue := 77
  newValue := 77
  watchType := 77
  accessType := 77

/-! ## Lemmas on machine integers -/

theorem and_high_mask (k x : Nat) (hk : k ≤ 32) (hx : x < 4294967296) :
    x &&& (2 ^ k * (2 ^ (32 - k) - 1)) = 2 ^ k * (x / 2 ^ k) := by
  apply Nat.eq_of_testBit_eq
  intro i
  rw [Nat.testBit_and, Nat.testBit_mul_pow_two, Nat.testBit_mul_pow_two,
    Nat.testBit_two_pow_sub_one, ← Nat.shiftRight_eq_div_pow, Nat.testBit_shiftRight]
  by_cases hik : i ≥ k
  · have e : k + (i - k) = i := by omega
    rw [e]
    by_cases hi : i < 32
    · have : i - k < 32 - k := by omega
      simp [hik, this]
    · have hlt : x < 2 ^ i :=
        lt_of_lt_of_le hx (by
          have : (4294967296 : Nat) = 2 ^ 32 := by norm_num
          rw [this]
          exact Nat.pow_le_pow_right (by norm_num) (by omega))
      simp [Nat.testBit_lt_two_pow hlt]
  · simp [hik]

/-- The mask test on two 32-bit addresses is the test that they lie in the same
`W`-aligned block. -/
theorem mask_test_iff_same_block (W x y : Nat) (hW : W = 1 ∨ W = 2 ∨ W = 4)
    (hx : x < 4294967296) (hy : y < 4294967296) :
    (x ^^^ y) &&& (4294967295 - (W - 1)) = 0 ↔ x / W = y / W := by
  rw [Nat.and_xor_distrib_right, Nat.xor_eq_zero]
  rcases hW with rfl | rfl | rfl
  · have h := and_high_mask 0 x (by norm_num) hx
    have h2 := and_high_mask 0 y (by norm_num) hy
    norm_num at h h2 ⊢
    rw [h, h2]
  · have h := and_high_mask 1 x (by norm_num) hx
    have h2 := and_high_mask 1 y (by norm_num) hy
    norm_num at h h2 ⊢
    rw [h, h2]; omega
  · have h := and_high_mask 2 x (by norm_num) hx
    have h2 := and_high_mask 2 y (by norm_num) hy
    norm_num at h h2 ⊢
    rw [h, h2]; omega

/-- The mask `~(W - 1)` as the `uint32_t` it is converted to. -/
theorem toU32_bitNot_width (W : Nat) (hW : W = 1 ∨ W = 2 ∨ W = 4) :
    toU32 (bitNot ((W : Int) - 1)) = 4294967295 - (W - 1) := by
  rcases hW with rfl | rfl | rfl <;> decide

theorem toI32_modEq (x : Int) : toI32 x ≡ x [ZMOD 4294967296] := by
  have h := (Int.mod_modEq (x + 2147483648) 4294967296).sub_right 2147483648
  simpa [toI32] using h

theorem toU32_modEq (x : Int) : ((toU32 x : Nat) : Int) ≡ x [ZMOD 4294967296] := by
  unfold toU32
  rw [Int.toNat_of_nonneg (Int.emod_nonneg _ (by norm_num))]
  exact Int.mod_modEq _ _

theorem toU32_congr {x y : Int} (h : x ≡ y [ZMOD 4294967296]) : toU32 x = toU32 y := by
  unfold toU32
  rw [h.eq]

theorem toI32_of_range (x : Int) (h1 : -2147483648 ≤ x) (h2 : x ≤ 2147483647) : toI32 x = x := by
  unfold toI32
  omega

theorem toI16_of_range (x : Int) (h1 : -32768 ≤ x) (h2 : x ≤ 32767) : toI16 x = x := by
  unfold toI16
  omega

theorem toI8_of_range (x : Int) (h1 : -128 ≤ x) (h2 : x ≤ 127) : toI8 x = x := by
  unfold toI8
  omega

theorem toU32_cast (x : Int) : ((toU32 x : Nat) : Int) = x % 4294967296 := by
  unfold toU32
  exact Int.toNat_of_nonneg (Int.emod_nonneg _ (by norm_num))

theorem toU32_of_neg (y : Int) (h1 : -2147483648 ≤ y) (h2 : y < 0) :
    ((toU32 y : Nat) : Int) = y + 4294967296 := by
  rw [toU32_cast]
  omega

theorem toU32_of_nonneg (y : Int) (h1 : 0 ≤ y) (h2 : y < 4294967296) :
    ((toU32 y : Nat) : Int) = y := by
  rw [toU32_cast]
  omega

theorem toI16_range (x : Int) : -32768 ≤ toI16 x ∧ toI16 x ≤ 32767 := by
  unfold toI16
  omega

theorem toI16_pattern (x : Int) : toI16 x % 65536 = x % 65536 := by
  unfold toI16
  omega

theorem toI16_neg_iff (x : Int) : toI16 x < 0 ↔ 32768 ≤ x % 65536 := by
  unfold toI16
  omega

theorem toI8_range (x : Int) : -128 ≤ toI8 x ∧ toI8 x ≤ 127 := by
  unfold toI8
  omega

theorem toI8_pattern (x : Int) : toI8 x % 256 = x % 256 := by
  unfold toI8
  omega

theorem toI8_neg_iff (x : Int) : toI8 x < 0 ↔ 128 ≤ x % 256 := by
  unfold toI8
  omega

/-! ## Lemmas on `_checkWatchpoints` -/

/-- The test of line 97 in the words of section 4.2 of the specification. -/
theorem watchpointMatches_iff (w : DebugWatchpoint) (address type W : Nat)
    (hW : W = 1 ∨ W = 2 ∨ W = 4) :
    watchpointMatches w address type ((W : Int) - 1) = true ↔
      ((w.address ^^^ address) &&& (4294967295 - (W - 1)) = 0 ∧ w.type &&& type ≠ 0) := by
  simp [watchpointMatches, toU32_bitNot_width W hW]

theorem checkLoop_fst (R : Routines σ) (d : Debugger ρ) (address type newValue : Nat)
    (width : Int) (wps : List DebugWatchpoint) (info : DebuggerEntryInfo) (m : Machine σ) :
    (checkLoop R d address type newValue width wps info m).1 =
      wps.any (fun w => watchpointMatches w address type width) := by
  induction wps with
  | nil => rfl
  | cons w later ih =>
    by_cases h : watchpointMatches w address type width = true
    · simp [checkLoop, h]
    · simp [checkLoop, h, ih]

theorem checkLoop_of_no_match (R : Routines σ) (d : Debugger ρ) (address type newValue : Nat)
    (width : Int) (wps : List DebugWatchpoint) (info : DebuggerEntryInfo) (m : Machine σ)
    (h : ∀ w ∈ wps, watchpointMatches w address type width = false) :
    checkLoop R d address type newValue width wps info m = (false, info, m) := by
  induction wps with
  | nil => rfl
  | cons w later ih =>
    have hw : watchpointMatches w address type width = false := h w (by simp)
    simp only [checkLoop, hw]
    exact ih (fun x hx => h x (by simp [hx]))

theorem checkLoop_of_first_match (R : Routines σ) (d : Debugger ρ) (address type newValue : Nat)
    (width : Int) (before : List DebugWatchpoint) (w : DebugWatchpoint)
    (later : List DebugWatchpoint) (info : DebuggerEntryInfo) (m : Machine σ)
    (hb : ∀ x ∈ before, watchpointMatches x address type width = false)
    (hw : watchpointMatches w address type width = true) :
    checkLoop R d address type newValue width (before ++ w :: later) info m =
      (true,
       { (readOldValue R d address info width m).1 with
           newValue := newValue
           address := address
           watchType := w.type
           accessType := type },
       (readOldValue R d address info width m).2) := by
  induction before with
  | nil => simp [checkLoop, hw]
  | cons x xs ih =>
    have hx : watchpointMatches x address type width = false := hb x (by simp)
    simp only [List.cons_append, checkLoop, hx]
    exact ih (fun y hy => hb y (by simp [hy]))

theorem checkWatchpoints_fst (R : Routines σ) (d : Debugger ρ) (address : Nat)
    (info : DebuggerEntryInfo) (type newValue : Nat) (width : Int) (m : Machine σ) :
    (_checkWatchpoints R d address info type newValue width m).1 =
      d.watchpoints.any (fun w => watchpointMatches w address type (width - 1)) := by
  simp [_checkWatchpoints, checkLoop_fst]

/-! ## C1 -/

/-- C1: for every watchpoint list, address, access type and width `W` in
{1, 2, 4}, `_checkWatchpoints` returns true exactly when the list holds a
watchpoint `w` with `(w.address XOR address) AND NOT (W-1) = 0` (on 32 bits)
and `w.type AND type ≠ 0`.  For 32-bit addresses it returns false when every
watchpoint in the `W`-aligned block of the access (if any) has a type disjoint
from the access type.  A READ watchpoint at `0x2000` fires for a 2-byte load at
`0x2000` and not for a 2-byte store there. -/
theorem checkWatchpoints_true_iff (R : Routines σ) (d : Debugger ρ)
    (address type newValue W : Nat) (info : DebuggerEntryInfo) (m : Machine σ)
    (hW : W = 1 ∨ W = 2 ∨ W = 4) :
    ((_checkWatchpoints R d address info type newValue (W : Int) m).1 = true ↔
      ∃ w ∈ d.watchpoints,
        (w.address ^^^ address) &&& (4294967295 - (W - 1)) = 0 ∧ w.type &&& type ≠ 0) ∧
    (address < 4294967296 → (∀ w ∈ d.watchpoints, w.address < 4294967296) →
      (∀ w ∈ d.watchpoints, w.address / W = address / W → w.type &&& type = 0) →
      (_checkWatchpoints R d address info type newValue (W : Int) m).1 = false) ∧
    (d.watchpoints = [⟨0x2000, WATCHPOINT_READ⟩] →
      (_checkWatchpoints R d 0x2000 info WATCHPOINT_READ 0 2 m).1 = true ∧
      (_checkWatchpoints R d 0x2000 info WATCHPOINT_WRITE newValue 2 m).1 = false) := by
  have key : (_checkWatchpoints R d address info type newValue (W : Int) m).1 = true ↔
      ∃ w ∈ d.watchpoints,
        (w.address ^^^ address) &&& (4294967295 - (W - 1)) = 0 ∧ w.type &&& type ≠ 0 := by
    rw [checkWatchpoints_fst, List.any_eq_true]
    constructor
    · rintro ⟨w, hw, hm⟩
      exact ⟨w, hw, (watchpointMatches_iff w address type W hW).1 hm⟩
    · rintro ⟨w, hw, hm⟩
      exact ⟨w, hw, (watchpointMatches_iff w address type W hW).2 hm⟩
  refine ⟨key, ?_, ?_⟩
  · intro ha hws hblock
    rw [← Bool.not_eq_true, key]
    rintro ⟨w, hw, hmask, htype⟩
    exact htype (hblock w hw
      ((mask_test_iff_same_block W w.address address hW (hws w hw) ha).1 hmask))
  · intro hwps
    rw [checkWatchpoints_fst, checkWatchpoints_fst, hwps]
    constructor <;> decide

/-- C1, at a concrete input: the READ watchpoint at `0x2000` of the small
machine and a 2-byte access. -/
theorem checkWatchpoints_true_iff_witness :
    ((2 : Nat) = 1 ∨ (2 : Nat) = 2 ∨ (2 : Nat) = 4) ∧
    ((_checkWatchpoints toyRoutines (toyDebugger [⟨0x2000, WATCHPOINT_READ⟩]) 0x2000 toyInfo
        WATCHPOINT_READ 0 2 toyStart).1 = true ∧
     (_checkWatchpoints toyRoutines (toyDebugger [⟨0x2000, WATCHPOINT_READ⟩]) 0x2000 toyInfo
        WATCHPOINT_WRITE 0 2 toyStart).1 = false) :=
  ⟨by decide,
   (checkWatchpoints_true_iff toyRoutines (toyDebugger [⟨0x2000, WATCHPOINT_READ⟩])
      0x2000 WATCHPOINT_READ 0 2 toyInfo toyStart (by decide)).2.2 rfl⟩

/-! ## The check of one access, in closed form -/

theorem watchpointMatches_eq_matchCondition (w : DebugWatchpoint) (address type W : Nat)
    (hW : W = 1 ∨ W = 2 ∨ W = 4) :
    watchpointMatches w address type ((W : Int) - 1) = matchCondition w address type W := by
  simp [watchpointMatches, matchCondition, toU32_bitNot_width W hW]

theorem readOldValue_eq (R : Routines σ) (d : Debugger ρ) (address W : Nat)
    (info : DebuggerEntryInfo) (m : Machine σ) (hW : W = 1 ∨ W = 2 ∨ W = 4) :
    readOldValue R d address info ((W : Int) - 1) m =
      ({ info with oldValue := (R.load (d.originalMemory.loadOfWidth W) m.state address 0).1 },
       { state := (R.load (d.originalMemory.loadOfWidth W) m.state address 0).2,
         trace := m.trace ++ [Event.load (d.originalMemory.loadOfWidth W) address 0] }) := by
  rcases hW with rfl | rfl | rfl <;>
    simp [readOldValue, callLoad, ARMMemory.loadOfWidth]

theorem checkAndEnter_of_no_match (R : Routines σ) (cpu : ARMCore ρ) (debugger address : Nat)
    (info : DebuggerEntryInfo) (type newValue W : Nat) (m : Machine σ)
    (hW : W = 1 ∨ W = 2 ∨ W = 4)
    (h : ∀ w ∈ (cpu.object debugger).watchpoints, matchCondition w address type W = false) :
    checkAndEnter R cpu debugger address info type newValue (W : Int) m =
      missOutcome address type newValue W m := by
  have h2 : ∀ w ∈ (cpu.object debugger).watchpoints,
      watchpointMatches w address type ((W : Int) - 1) = false := by
    intro w hw
    rw [watchpointMatches_eq_matchCondition w address type W hW]
    exact h w hw
  simp [checkAndEnter, _checkWatchpoints, checkLoop_of_no_match _ _ _ _ _ _ _ _ _ h2, missOutcome]

theorem checkAndEnter_of_first_match (R : Routines σ) (cpu : ARMCore ρ) (debugger address : Nat)
    (info : DebuggerEntryInfo) (type newValue W : Nat) (m : Machine σ)
    (hW : W = 1 ∨ W = 2 ∨ W = 4) (before : List DebugWatchpoint) (w : DebugWatchpoint)
    (later : List DebugWatchpoint)
    (hs : (cpu.object debugger).watchpoints = before ++ w :: later)
    (hb : ∀ x ∈ before, matchCondition x address type W = false)
    (hw : matchCondition w address type W = true) :
    checkAndEnter R cpu debugger address info type newValue (W : Int) m =
      hitOutcome R debugger ((cpu.object debugger).originalMemory.loadOfWidth W) address type
        newValue W w.type m := by
  have hb2 : ∀ x ∈ before, watchpointMatches x address type ((W : Int) - 1) = false := by
    intro x hx
    rw [watchpointMatches_eq_matchCondition x address type W hW]
    exact hb x hx
  have hw2 : watchpointMatches w address type ((W : Int) - 1) = true := by
    rw [watchpointMatches_eq_matchCondition w address type W hW]
    exact hw
  simp [checkAndEnter, _checkWatchpoints, hs,
    checkLoop_of_first_match _ _ _ _ _ _ _ _ _ _ _ hb2 hw2,
    readOldValue_eq _ _ _ _ _ _ hW, hitOutcome, hitInfo, DebuggerEnter]

theorem find_eq_some_split {α : Type} (p : α → Bool) (l : List α) (a : α)
    (h : l.find? p = some a) :
    ∃ before later, l = before ++ a :: later ∧ (∀ x ∈ before, p x = false) ∧ p a = true := by
  induction l with
  | nil => simp at h
  | cons x xs ih =>
    by_cases hx : p x = true
    · rw [List.find?_cons_of_pos _ hx] at h
      cases h
      exact ⟨[], xs, rfl, by simp, hx⟩
    · rw [List.find?_cons_of_neg _ hx] at h
      obtain ⟨before, later, h1, h2, h3⟩ := ih h
      refine ⟨x :: before, later, by simp [h1], ?_, h3⟩
      intro y hy
      rcases List.mem_cons.1 hy with rfl | hy
      · simpa using hx
      · exact h2 y hy

/-- The statement `if (_checkWatchpoints(...)) DebuggerEnter(...)` leaves the
machine in the state `checkOutcome` describes. -/
theorem checkAndEnter_eq_checkOutcome (R : Routines σ) (cpu : ARMCore ρ)
    (debugger address : Nat) (info : DebuggerEntryInfo) (type newValue W : Nat) (m : Machine σ)
    (hW : W = 1 ∨ W = 2 ∨ W = 4) :
    checkAndEnter R cpu debugger address info type newValue (W : Int) m =
      checkOutcome R (cpu.object debugger) debugger address type newValue W m := by
  unfold checkOutcome
  cases hf : (cpu.object debugger).watchpoints.find? (fun w => matchCondition w address type W) with
  | none =>
    simp only
    apply checkAndEnter_of_no_match _ _ _ _ _ _ _ _ _ hW
    intro w hw
    have := List.find?_eq_none.1 hf w hw
    simpa using this
  | some w =>
    simp only
    obtain ⟨before, later, h1, h2, h3⟩ := find_eq_some_split _ _ _ hf
    exact checkAndEnter_of_first_match _ _ _ _ _ _ _ _ _ hW before w later h1 h2 h3

theorem checkOutcome_of_hit (R : Routines σ) (d : Debugger ρ) (debugger address type newValue : Nat)
    (W : Nat) (m : Machine σ)
    (h : ∃ w ∈ d.watchpoints, matchCondition w address type W = true) :
    ∃ w ∈ d.watchpoints, matchCondition w address type W = true ∧
      checkOutcome R d debugger address type newValue W m =
        hitOutcome R debugger (d.originalMemory.loadOfWidth W) address type newValue W w.type m := by
  unfold checkOutcome
  cases hf : d.watchpoints.find? (fun w => matchCondition w address type W) with
  | none =>
    obtain ⟨w, hw, hm⟩ := h
    have := List.find?_eq_none.1 hf w hw
    simp [hm] at this
  | some w =>
    obtain ⟨_, _, _, _, h3⟩ := find_eq_some_split _ _ _ hf
    exact ⟨w, List.mem_of_find?_eq_some hf, h3, rfl⟩

theorem checkOutcome_of_miss (R : Routines σ) (d : Debugger ρ) (debugger address type newValue : Nat)
    (W : Nat) (m : Machine σ)
    (h : ∀ w ∈ d.watchpoints, matchCondition w address type W = false) :
    checkOutcome R d debugger address type newValue W m = missOutcome address type newValue W m := by
  unfold checkOutcome
  cases hf : d.watchpoints.find? (fun w => matchCondition w address type W) with
  | none => rfl
  | some w =>
    have h1 := h w (List.mem_of_find?_eq_some hf)
    obtain ⟨_, _, _, _, h2⟩ := find_eq_some_split _ _ _ hf
    rw [h1] at h2
    cases h2

theorem read_shim_eq (NAME : ARMMemory ρ → FnPtr) (W : Nat) (hW : W = 1 ∨ W = 2 ∨ W = 4)
    (R : Routines σ) (cpu : ARMCore ρ) (debugger address cycleCounter : Nat)
    (info : DebuggerEntryInfo) (m : Machine σ) (hd : FIND_DEBUGGER cpu = some debugger) :
    CREATE_WATCHPOINT_READ_SHIM NAME (W : Int) R cpu address cycleCounter info m =
      some (callLoad R (NAME (cpu.object debugger).originalMemory) address cycleCounter
        (checkOutcome R (cpu.object debugger) debugger address WATCHPOINT_READ 0 W m)) := by
  simp [CREATE_WATCHPOINT_READ_SHIM, hd, checkAndEnter_eq_checkOutcome _ _ _ _ _ _ _ _ _ hW]

theorem write_shim_eq (NAME : ARMMemory ρ → FnPtr) (W : Nat) (hW : W = 1 ∨ W = 2 ∨ W = 4)
    (R : Routines σ) (cpu : ARMCore ρ) (debugger address : Nat) (value : Int)
    (cycleCounter : Nat) (info : DebuggerEntryInfo) (m : Machine σ)
    (hd : FIND_DEBUGGER cpu = some debugger) :
    CREATE_WATCHPOINT_WRITE_SHIM NAME (W : Int) R cpu address value cycleCounter info m =
      some (callStore R (NAME (cpu.object debugger).originalMemory) address value cycleCounter
        (checkOutcome R (cpu.object debugger) debugger address WATCHPOINT_WRITE (toU32 value) W
          m)) := by
  simp [CREATE_WATCHPOINT_WRITE_SHIM, hd, checkAndEnter_eq_checkOutcome _ _ _ _ _ _ _ _ _ hW]

/-- A load shim whose access hits: the events of the call. -/
theorem read_shim_hit_trace (NAME : ARMMemory ρ → FnPtr) (W : Nat) (hW : W = 1 ∨ W = 2 ∨ W = 4)
    (R : Routines σ) (cpu : ARMCore ρ) (debugger address cycleCounter : Nat)
    (info : DebuggerEntryInfo) (m : Machine σ) (hd : FIND_DEBUGGER cpu = some debugger)
    (h : ∃ w ∈ (cpu.object debugger).watchpoints, matchCondition w address WATCHPOINT_READ W = true) :
    ∃ watchType,
      (CREATE_WATCHPOINT_READ_SHIM NAME (W : Int) R cpu address cycleCounter info m).map
          (fun r => r.2.trace) =
        some (m.trace ++
          [Event.check address WATCHPOINT_READ 0 (W : Int),
           Event.load ((cpu.object debugger).originalMemory.loadOfWidth W) address 0,
           Event.enter debugger DEBUGGER_ENTER_WATCHPOINT
             { address := address
               oldValue :=
                 (R.load ((cpu.object debugger).originalMemory.loadOfWidth W) m.state address 0).1
               newValue := 0
               watchType := watchType
               accessType := WATCHPOINT_READ },
           Event.load (NAME (cpu.object debugger).originalMemory) address cycleCounter]) := by
  obtain ⟨w, _, _, hw⟩ := checkOutcome_of_hit R (cpu.object debugger) debugger address
    WATCHPOINT_READ 0 W m h
  refine ⟨w.type, ?_⟩
  rw [read_shim_eq NAME W hW R cpu debugger address cycleCounter info m hd, hw]
  simp [callLoad, hitOutcome, hitInfo]

/-- A store shim whose access hits: the events of the call. -/
theorem write_shim_hit_trace (NAME : ARMMemory ρ → FnPtr) (W : Nat) (hW : W = 1 ∨ W = 2 ∨ W = 4)
    (R : Routines σ) (cpu : ARMCore ρ) (debugger address : Nat) (value : Int)
    (cycleCounter : Nat) (info : DebuggerEntryInfo) (m : Machine σ)
    (hd : FIND_DEBUGGER cpu = some debugger)
    (h : ∃ w ∈ (cpu.object debugger).watchpoints,
      matchCondition w address WATCHPOINT_WRITE W = true) :
    ∃ watchType,
      (CREATE_WATCHPOINT_WRITE_SHIM NAME (W : Int) R cpu address value cycleCounter info m).map
          (fun r => r.trace) =
        some (m.trace ++
          [Event.check address WATCHPOINT_WRITE (toU32 value) (W : Int),
           Event.load ((cpu.object debugger).originalMemory.loadOfWidth W) address 0,
           Event.enter debugger DEBUGGER_ENTER_WATCHPOINT
             { address := address
               oldValue :=
                 (R.load ((cpu.object debugger).originalMemory.loadOfWidth W) m.state address 0).1
               newValue := toU32 value
               watchType := watchType
               accessType := WATCHPOINT_WRITE },
           Event.store (NAME (cpu.object debugger).originalMemory) address value cycleCounter]) := by
  obtain ⟨w, _, _, hw⟩ := checkOutcome_of_hit R (cpu.object debugger) debugger address
    WATCHPOINT_WRITE (toU32 value) W m h
  refine ⟨w.type, ?_⟩
  rw [write_shim_eq NAME W hW R cpu debugger address value cycleCounter info m hd, hw]
  simp [callStore, hitOutcome, hitInfo]

/-! ## C2 -/

/-- C2: when a load or store through the shim at address `a` hits a watchpoint,
the one entry info handed to `DebuggerEnter` has `address = a` (the access
address itself), `accessType` the requested access type, `oldValue` the result
of the original load of the same width at `a` on the machine state before the
access, and `newValue` 0 for a load and, for a store, the value the shim
received (the argument as the `int32_t`, `int16_t` or `int8_t` parameter holds
it) converted to `uint32_t`; a 4-byte value in `0 .. 2^32 - 1` is reported as
it is. -/
theorem shim_hit_entry_info (R : Routines σ) (cpu : ARMCore ρ)
    (debugger address cycleCounter : Nat) (value : Int) (info : DebuggerEntryInfo)
    (m : Machine σ) (hd : FIND_DEBUGGER cpu = some debugger) :
    ((∃ w ∈ (cpu.object debugger).watchpoints,
        (w.address ^^^ address) &&& 4294967292 = 0 ∧ w.type &&& WATCHPOINT_READ ≠ 0) →
      ∃ watchType,
        (DebuggerShim_load32 R cpu address cycleCounter info m).map (fun r => r.2.trace) =
          some (m.trace ++
            [Event.check address WATCHPOINT_READ 0 4,
             Event.load (cpu.object debugger).originalMemory.load32 address 0,
             Event.enter debugger DEBUGGER_ENTER_WATCHPOINT
               { address := address
                 oldValue :=
                   (R.load (cpu.object debugger).originalMemory.load32 m.state address 0).1
                 newValue := 0
                 watchType := watchType
                 accessType := WATCHPOINT_READ },
             Event.load (cpu.object debugger).originalMemory.load32 address cycleCounter])) ∧
    ((∃ w ∈ (cpu.object debugger).watchpoints,
        (w.address ^^^ address) &&& 4294967294 = 0 ∧ w.type &&& WATCHPOINT_READ ≠ 0) →
      ∃ watchType,
        (DebuggerShim_load16 R cpu address cycleCounter info m).map (fun r => r.2.trace) =
          some (m.trace ++
            [Event.check address WATCHPOINT_READ 0 2,
             Event.load (cpu.object debugger).originalMemory.load16 address 0,
             Event.enter debugger DEBUGGER_ENTER_WATCHPOINT
               { address := address
                 oldValue :=
                   (R.load (cpu.object debugger).originalMemory.load16 m.state address 0).1
                 newValue := 0
                 watchType := watchType
                 accessType := WATCHPOINT_READ },
             Event.load (cpu.object debugger).originalMemory.load16 address cycleCounter])) ∧
    ((∃ w ∈ (cpu.object debugger).watchpoints,
        (w.address ^^^ address) &&& 4294967295 = 0 ∧ w.type &&& WATCHPOINT_READ ≠ 0) →
      ∃ watchType,
        (DebuggerShim_load8 R cpu address cycleCounter info m).map (fun r => r.2.trace) =
          some (m.trace ++
            [Event.check address WATCHPOINT_READ 0 1,
             Event.load (cpu.object debugger).originalMemory.load8 address 0,
             Event.enter debugger DEBUGGER_ENTER_WATCHPOINT
               { address := address
                 oldValue :=
                   (R.load (cpu.object debugger).originalMemory.load8 m.state address 0).1
                 newValue := 0
                 watchType := watchType
                 accessType := WATCHPOINT_READ },
             Event.load (cpu.object debugger).originalMemory.load8 address cycleCounter])) ∧
    ((∃ w ∈ (cpu.object debugger).watchpoints,
        (w.address ^^^ address) &&& 4294967292 = 0 ∧ w.type &&& WATCHPOINT_WRITE ≠ 0) →
      ∃ watchType,
        (DebuggerShim_store32 R cpu address value cycleCounter info m).map (fun r => r.trace) =
          some (m.trace ++
            [Event.check address WATCHPOINT_WRITE (toU32 (toI32 value)) 4,
             Event.load (cpu.object debugger).originalMemory.load32 address 0,
             Event.enter debugger DEBUGGER_ENTER_WATCHPOINT
               { address := address
                 oldValue :=
                   (R.load (cpu.object debugger).originalMemory.load32 m.state address 0).1
                 newValue := toU32 (toI32 value)
                 watchType := watchType
                 accessType := WATCHPOINT_WRITE },
             Event.store (cpu.object debugger).originalMemory.store32 address (toI32 value)
               cycleCounter])) ∧
    ((∃ w ∈ (cpu.object debugger).watchpoints,
        (w.address ^^^ address) &&& 4294967294 = 0 ∧ w.type &&& WATCHPOINT_WRITE ≠ 0) →
      ∃ watchType,
        (DebuggerShim_store16 R cpu address value cycleCounter info m).map (fun r => r.trace) =
          some (m.trace ++
            [Event.check address WATCHPOINT_WRITE (toU32 (toI16 value)) 2,
             Event.load (cpu.object debugger).originalMemory.load16 address 0,
             Event.enter debugger DEBUGGER_ENTER_WATCHPOINT
               { address := address
                 oldValue :=
                   (R.load (cpu.object debugger).originalMemory.load16 m.state address 0).1
                 newValue := toU32 (toI16 value)
                 watchType := watchType
                 accessType := WATCHPOINT_WRITE },
             Event.store (cpu.object debugger).originalMemory.store16 address (toI16 value)
               cycleCounter])) ∧
    ((∃ w ∈ (cpu.object debugger).watchpoints,
        (w.address ^^^ address) &&& 4294967295 = 0 ∧ w.type &&& WATCHPOINT_WRITE ≠ 0) →
      ∃ watchType,
        (DebuggerShim_store8 R cpu address value cycleCounter info m).map (fun r => r.trace) =
          some (m.trace ++
            [Event.check address WATCHPOINT_WRITE (toU32 (toI8 value)) 1,
             Event.load (cpu.object debugger).originalMemory.load8 address 0,
             Event.enter debugger DEBUGGER_ENTER_WATCHPOINT
               { address := address
                 oldValue :=
                   (R.load (cpu.object debugger).originalMemory.load8 m.state address 0).1
                 newValue := toU32 (toI8 value)
                 watchType := watchType
                 accessType := WATCHPOINT_WRITE },
             Event.store (cpu.object debugger).originalMemory.store8 address (toI8 value)
               cycleCounter])) ∧
    (0 ≤ value → value < 4294967296 → (toU32 value : Int) = value) ∧
    (0 ≤ value → value < 4294967296 → (toU32 (toI32 value) : Int) = value) := by
  refine ⟨?_, ?_, ?_, ?_, ?_, ?_, ?_, ?_⟩
  · rintro ⟨w, hw, h1, h2⟩
    exact read_shim_hit_trace (fun t => t.load32) 4 (by decide) R cpu debugger address
      cycleCounter info m hd ⟨w, hw, by simp [matchCondition, h1, h2]⟩
  · rintro ⟨w, hw, h1, h2⟩
    exact read_shim_hit_trace (fun t => t.load16) 2 (by decide) R cpu debugger address
      cycleCounter info m hd ⟨w, hw, by simp [matchCondition, h1, h2]⟩
  · rintro ⟨w, hw, h1, h2⟩
    exact read_shim_hit_trace (fun t => t.load8) 1 (by decide) R cpu debugger address
      cycleCounter info m hd ⟨w, hw, by simp [matchCondition, h1, h2]⟩
  · rintro ⟨w, hw, h1, h2⟩
    exact write_shim_hit_trace (fun t => t.store32) 4 (by decide) R cpu debugger address (toI32 value)
      cycleCounter info m hd ⟨w, hw, by simp [matchCondition, h1, h2]⟩
  · rintro ⟨w, hw, h1, h2⟩
    exact write_shim_hit_trace (fun t => t.store16) 2 (by decide) R cpu debugger address (toI16 value)
      cycleCounter info m hd ⟨w, hw, by simp [matchCondition, h1, h2]⟩
  · rintro ⟨w, hw, h1, h2⟩
    exact write_shim_hit_trace (fun t => t.store8) 1 (by decide) R cpu debugger address (toI8 value)
      cycleCounter info m hd ⟨w, hw, by simp [matchCondition, h1, h2]⟩
  · intro h0 h1
    unfold toU32
    omega
  · intro h0 h1
    rw [toU32_congr (toI32_modEq value)]
    unfold toU32
    omega

/-- C2, at the input of example 1: the watchpoint `{0x1000, WRITE}` and a
4-byte store of 42 to `0x1002` on the small machine, where the word at
`0x1002` is `0xAABBCCDD` before the store. -/
theorem shim_hit_entry_info_witness :
    FIND_DEBUGGER (toyCore [⟨0x1000, WATCHPOINT_WRITE⟩]) = some 2 ∧
    ∃ watchType,
      (DebuggerShim_store32 toyRoutines (toyCore [⟨0x1000, WATCHPOINT_WRITE⟩]) 0x1002 42 5
          toyInfo toyStart).map (fun r => r.trace) =
        some
          [Event.check 0x1002 WATCHPOINT_WRITE 42 4,
           Event.load (FnPtr.fn 0) 0x1002 0,
           Event.enter 2 DEBUGGER_ENTER_WATCHPOINT
             { address := 0x1002
               oldValue := 0xAABBCCDD
               newValue := 42
               watchType := watchType
               accessType := WATCHPOINT_WRITE },
           Event.store (FnPtr.fn 3) 0x1002 42 5] :=
  ⟨by decide,
   (shim_hit_entry_info toyRoutines (toyCore [⟨0x1000, WATCHPOINT_WRITE⟩]) 2 0x1002 5 42
      toyInfo toyStart (by decide)).2.2.2.1 ⟨⟨0x1000, WATCHPOINT_WRITE⟩, by decide, by decide⟩⟩

/-! ## The shims when no watchpoint is hit -/

theorem read_shim_miss (NAME : ARMMemory ρ → FnPtr) (W : Nat) (hW : W = 1 ∨ W = 2 ∨ W = 4)
    (R : Routines σ) (cpu : ARMCore ρ) (debugger address cycleCounter : Nat)
    (info : DebuggerEntryInfo) (m : Machine σ) (hd : FIND_DEBUGGER cpu = some debugger)
    (h : ∀ w ∈ (cpu.object debugger).watchpoints,
      matchCondition w address WATCHPOINT_READ W = false) :
    CREATE_WATCHPOINT_READ_SHIM NAME (W : Int) R cpu address cycleCounter info m =
      some ((R.load (NAME (cpu.object debugger).originalMemory) m.state address cycleCounter).1,
        { state :=
            (R.load (NAME (cpu.object debugger).originalMemory) m.state address cycleCounter).2
          trace := m.trace ++
            [Event.check address WATCHPOINT_READ 0 (W : Int),
             Event.load (NAME (cpu.object debugger).originalMemory) address cycleCounter] }) := by
  rw [read_shim_eq NAME W hW R cpu debugger address cycleCounter info m hd,
    checkOutcome_of_miss _ _ _ _ _ _ _ _ h]
  simp [callLoad, missOutcome]

theorem write_shim_miss (NAME : ARMMemory ρ → FnPtr) (W : Nat) (hW : W = 1 ∨ W = 2 ∨ W = 4)
    (R : Routines σ) (cpu : ARMCore ρ) (debugger address : Nat) (value : Int)
    (cycleCounter : Nat) (info : DebuggerEntryInfo) (m : Machine σ)
    (hd : FIND_DEBUGGER cpu = some debugger)
    (h : ∀ w ∈ (cpu.object debugger).watchpoints,
      matchCondition w address WATCHPOINT_WRITE W = false) :
    CREATE_WATCHPOINT_WRITE_SHIM NAME (W : Int) R cpu address value cycleCounter info m =
      some
        { state :=
            R.store (NAME (cpu.object debugger).originalMemory) m.state address value cycleCounter
          trace := m.trace ++
            [Event.check address WATCHPOINT_WRITE (toU32 value) (W : Int),
             Event.store (NAME (cpu.object debugger).originalMemory) address value
               cycleCounter] } := by
  rw [write_shim_eq NAME W hW R cpu debugger address value cycleCounter info m hd,
    checkOutcome_of_miss _ _ _ _ _ _ _ _ h]
  simp [callStore, missOutcome]

/-! ## The block-transfer shims -/

theorem lsmBase_modEq (address k direction : Nat) :
    lsmBase address k direction ≡
      (if direction &&& LSM_D = 0 then
        if direction &&& LSM_B = 0 then (address : Int) else (address : Int) + 4
      else
        if direction &&& LSM_B = 0 then (address : Int) - 4 * k + 4 else (address : Int) - 4 * k)
      [ZMOD 4294967296] := by
  have hdown : toI32 ((toU32 (toI32 address) : Int) - (toU32 (((k <<< 2 : Nat) : Int) - 4) : Int))
      ≡ (address : Int) - 4 * k + 4 [ZMOD 4294967296] := by
    refine (toI32_modEq _).trans ?_
    refine (((toU32_modEq _).trans (toI32_modEq _)).sub (toU32_modEq _)).trans ?_
    have e : (address : Int) - (((k <<< 2 : Nat) : Int) - 4) = (address : Int) - 4 * k + 4 := by
      rw [Nat.shiftLeft_eq]; push_cast; ring
    rw [e]
  unfold lsmBase
  by_cases hD : direction &&& LSM_D = 0 <;> by_cases hB : direction &&& LSM_B = 0
  · simp only [hD, hB, ne_eq, not_true_eq_false, if_false, if_true]
    exact toI32_modEq _
  · simp only [hD, hB, ne_eq, not_true_eq_false, not_false_eq_true, if_false, if_true]
    exact (toI32_modEq _).trans ((toI32_modEq _).add_right 4)
  · simp only [hD, hB, ne_eq, not_true_eq_false, not_false_eq_true, if_false, if_true]
    exact hdown
  · simp only [hD, hB, ne_eq, not_false_eq_true, if_false, if_true]
    refine (toI32_modEq _).trans ((hdown.add_right (-4)).trans ?_)
    have e : (address : Int) - 4 * k + 4 + -4 = (address : Int) - 4 * k := by ring
    rw [e]

/-- The address the loop of lines 72-77 checks at step `i` is the word address
of the block-transfer rule. -/
theorem lsm_address_eq (address k direction i : Nat) :
    toU32 (lsmBase address k direction + 4 * (i : Int)) =
      blockTransferAddress address k direction i := by
  have h := (lsmBase_modEq address k direction).add_right (4 * (i : Int))
  unfold blockTransferAddress
  by_cases hD : direction &&& LSM_D = 0 <;> by_cases hB : direction &&& LSM_B = 0 <;>
    simp only [hD, hB, if_true, if_false] at h ⊢ <;> exact toU32_congr h

theorem lsmLoop_eq (T : Nat) (R : Routines σ) (cpu : ARMCore ρ) (debugger address k direction : Nat)
    (info : DebuggerEntryInfo) (n : Nat) (m : Machine σ) :
    lsmLoop T R cpu debugger (lsmBase address k direction) info n m =
      ((List.range n).map (blockTransferAddress address k direction)).foldl
        (fun m a => checkOutcome R (cpu.object debugger) debugger a T 0 4 m) m := by
  simp only [lsmLoop, List.foldl_map, lsm_address_eq]
  have h4 : ∀ (a : Nat) (m : Machine σ),
      checkAndEnter R cpu debugger a info T 0 4 m =
        checkOutcome R (cpu.object debugger) debugger a T 0 4 m :=
    fun a m => checkAndEnter_eq_checkOutcome R cpu debugger a info T 0 4 m (by decide)
  simp only [h4]

theorem multiple_shim_eq (NAME : ARMMemory ρ → FnPtr) (T : Nat) (R : Routines σ)
    (cpu : ARMCore ρ) (debugger address : Nat) (mask : Int) (direction cycleCounter : Nat)
    (info : DebuggerEntryInfo) (m : Machine σ) (hd : FIND_DEBUGGER cpu = some debugger) :
    CREATE_MULTIPLE_WATCHPOINT_SHIM NAME T R cpu address mask direction cycleCounter info m =
      some (callMultiple R (NAME (cpu.object debugger).originalMemory) address mask direction
        cycleCounter
        (((List.range (popcount32 (toU32 mask))).map
            (blockTransferAddress address (popcount32 (toU32 mask)) direction)).foldl
          (fun m a => checkOutcome R (cpu.object debugger) debugger a T 0 4 m) m)) := by
  simp only [CREATE_MULTIPLE_WATCHPOINT_SHIM, hd, lsmLoop_eq]

theorem fold_checkOutcome_miss (R : Routines σ) (d : Debugger ρ) (debugger T : Nat)
    (as : List Nat) (m : Machine σ)
    (h : ∀ a ∈ as, ∀ w ∈ d.watchpoints, matchCondition w a T 4 = false) :
    as.foldl (fun m a => checkOutcome R d debugger a T 0 4 m) m =
      { state := m.state, trace := m.trace ++ as.map (fun a => Event.check a T 0 4) } := by
  induction as generalizing m with
  | nil => simp
  | cons a rest ih =>
    rw [List.foldl_cons, checkOutcome_of_miss R d debugger a T 0 4 m (h a (by simp)),
      ih _ (fun b hb => h b (by simp [hb]))]
    simp [missOutcome]

theorem multiple_shim_miss (NAME : ARMMemory ρ → FnPtr) (T : Nat) (R : Routines σ)
    (cpu : ARMCore ρ) (debugger address : Nat) (mask : Int) (direction cycleCounter : Nat)
    (info : DebuggerEntryInfo) (m : Machine σ) (hd : FIND_DEBUGGER cpu = some debugger)
    (h : ∀ i < popcount32 (toU32 mask), ∀ w ∈ (cpu.object debugger).watchpoints,
      matchCondition w (blockTransferAddress address (popcount32 (toU32 mask)) direction i) T 4
        = false) :
    CREATE_MULTIPLE_WATCHPOINT_SHIM NAME T R cpu address mask direction cycleCounter info m =
      some
        ((R.multiple (NAME (cpu.object debugger).originalMemory) m.state address mask direction
            cycleCounter).1,
         { state :=
             (R.multiple (NAME (cpu.object debugger).originalMemory) m.state address mask
               direction cycleCounter).2
           trace := m.trace ++
             (List.range (popcount32 (toU32 mask))).map
               (fun i => Event.check
                 (blockTransferAddress address (popcount32 (toU32 mask)) direction i) T 0 4) ++
             [Event.multiple (NAME (cpu.object debugger).originalMemory) address mask direction
               cycleCounter] }) := by
  rw [multiple_shim_eq NAME T R cpu debugger address mask direction cycleCounter info m hd,
    fold_checkOutcome_miss]
  · simp [callMultiple, List.map_map, Function.comp_def]
  · intro a ha w hw
    obtain ⟨i, hi, rfl⟩ := List.mem_map.1 ha
    exact h i (List.mem_range.1 hi) w hw

/-! ## C3 -/

/-- C3: transparency.  When no watchpoint check of a call through a shim hits,
the call raises no debugger entry, calls the corresponding original operation
once, with the arguments it was given (cycle counter included), makes no other
call through the original table, and returns what the original returns: the
value and the machine state are those of the direct call, and the events are
the checks followed by that one call.  The value of a store is the argument as
the `int32_t`, `int16_t` or `int8_t` parameter holds it, which is the argument
itself when it is in the range of that type. -/
theorem shim_transparent (R : Routines σ) (cpu : ARMCore ρ)
    (debugger address cycleCounter direction : Nat) (value mask : Int)
    (info : DebuggerEntryInfo) (m : Machine σ) (hd : FIND_DEBUGGER cpu = some debugger) :
    ((∀ w ∈ (cpu.object debugger).watchpoints,
        ¬((w.address ^^^ address) &&& 4294967292 = 0 ∧ w.type &&& WATCHPOINT_READ ≠ 0)) →
      DebuggerShim_load32 R cpu address cycleCounter info m =
        some ((R.load (cpu.object debugger).originalMemory.load32 m.state address cycleCounter).1,
          { state :=
              (R.load (cpu.object debugger).originalMemory.load32 m.state address cycleCounter).2
            trace := m.trace ++
              [Event.check address WATCHPOINT_READ 0 4,
               Event.load (cpu.object debugger).originalMemory.load32 address cycleCounter] })) ∧
    ((∀ w ∈ (cpu.object debugger).watchpoints,
        ¬((w.address ^^^ address) &&& 4294967294 = 0 ∧ w.type &&& WATCHPOINT_READ ≠ 0)) →
      DebuggerShim_load16 R cpu address cycleCounter info m =
        some ((R.load (cpu.object debugger).originalMemory.load16 m.state address cycleCounter).1,
          { state :=
              (R.load (cpu.object debugger).originalMemory.load16 m.state address cycleCounter).2
            trace := m.trace ++
              [Event.check address WATCHPOINT_READ 0 2,
               Event.load (cpu.object debugger).originalMemory.load16 address cycleCounter] })) ∧
    ((∀ w ∈ (cpu.object debugger).watchpoints,
        ¬((w.address ^^^ address) &&& 4294967295 = 0 ∧ w.type &&& WATCHPOINT_READ ≠ 0)) →
      DebuggerShim_load8 R cpu address cycleCounter info m =
        some ((R.load (cpu.object debugger).originalMemory.load8 m.state address cycleCounter).1,
          { state :=
              (R.load (cpu.object debugger).originalMemory.load8 m.state address cycleCounter).2
            trace := m.trace ++
              [Event.check address WATCHPOINT_READ 0 1,
               Event.load (cpu.object debugger).originalMemory.load8 address cycleCounter] })) ∧
    ((∀ w ∈ (cpu.object debugger).watchpoints,
        ¬((w.address ^^^ address) &&& 4294967292 = 0 ∧ w.type &&& WATCHPOINT_WRITE ≠ 0)) →
      DebuggerShim_store32 R cpu address value cycleCounter info m =
        some
          { state :=
              R.store (cpu.object debugger).originalMemory.store32 m.state address (toI32 value) cycleCounter
            trace := m.trace ++
              [Event.check address WATCHPOINT_WRITE (toU32 (toI32 value)) 4,
               Event.store (cpu.object debugger).originalMemory.store32 address (toI32 value)
                 cycleCounter] }) ∧
    ((∀ w ∈ (cpu.object debugger).watchpoints,
        ¬((w.address ^^^ address) &&& 4294967294 = 0 ∧ w.type &&& WATCHPOINT_WRITE ≠ 0)) →
      DebuggerShim_store16 R cpu address value cycleCounter info m =
        some
          { state :=
              R.store (cpu.object debugger).originalMemory.store16 m.state address (toI16 value) cycleCounter
            trace := m.trace ++
              [Event.check address WATCHPOINT_WRITE (toU32 (toI16 value)) 2,
               Event.store (cpu.object debugger).originalMemory.store16 address (toI16 value)
                 cycleCounter] }) ∧
    ((∀ w ∈ (cpu.object debugger).watchpoints,
        ¬((w.address ^^^ address) &&& 4294967295 = 0 ∧ w.type &&& WATCHPOINT_WRITE ≠ 0)) →
      DebuggerShim_store8 R cpu address value cycleCounter info m =
        some
          { state :=
              R.store (cpu.object debugger).originalMemory.store8 m.state address (toI8 value) cycleCounter
            trace := m.trace ++
              [Event.check address WATCHPOINT_WRITE (toU32 (toI8 value)) 1,
               Event.store (cpu.object debugger).originalMemory.store8 address (toI8 value)
                 cycleCounter] }) ∧
    ((∀ i < popcount32 (toU32 mask), ∀ w ∈ (cpu.object debugger).watchpoints,
        ¬((w.address ^^^ blockTransferAddress address (popcount32 (toU32 mask)) direction i) &&&
            4294967292 = 0 ∧ w.type &&& WATCHPOINT_READ ≠ 0)) →
      DebuggerShim_loadMultiple R cpu address mask direction cycleCounter info m =
        some
          ((R.multiple (cpu.object debugger).originalMemory.loadMultiple m.state address mask direction
              cycleCounter).1,
           { state :=
               (R.multiple (cpu.object debugger).originalMemory.loadMultiple m.state address mask
                 direction cycleCounter).2
             trace := m.trace ++
               (List.range (popcount32 (toU32 mask))).map
                 (fun i => Event.check
                   (blockTransferAddress address (popcount32 (toU32 mask)) direction i)
                   WATCHPOINT_READ 0 4) ++
               [Event.multiple (cpu.object debugger).originalMemory.loadMultiple address mask direction
                 cycleCounter] })) ∧
    ((∀ i < popcount32 (toU32 mask), ∀ w ∈ (cpu.object debugger).watchpoints,
        ¬((w.address ^^^ blockTransferAddress address (popcount32 (toU32 mask)) direction i) &&&
            4294967292 = 0 ∧ w.type &&& WATCHPOINT_WRITE ≠ 0)) →
      DebuggerShim_storeMultiple R cpu address mask direction cycleCounter info m =
        some
          ((R.multiple (cpu.object debugger).originalMemory.storeMultiple m.state address mask direction
              cycleCounter).1,
           { state :=
               (R.multiple (cpu.object debugger).originalMemory.storeMultiple m.state address mask
                 direction cycleCounter).2
             trace := m.trace ++
               (List.range (popcount32 (toU32 mask))).map
                 (fun i => Event.check
                   (blockTransferAddress address (popcount32 (toU32 mask)) direction i)
                   WATCHPOINT_WRITE 0 4) ++
               [Event.multiple (cpu.object debugger).originalMemory.storeMultiple address mask direction
                 cycleCounter] })) ∧
    (-2147483648 ≤ value → value ≤ 2147483647 → toI32 value = value) ∧
    (-32768 ≤ value → value ≤ 32767 → toI16 value = value) ∧
    (-128 ≤ value → value ≤ 127 → toI8 value = value) := by
  refine ⟨?_, ?_, ?_, ?_, ?_, ?_, ?_, ?_, toI32_of_range value, toI16_of_range value,
    toI8_of_range value⟩
  · intro h
    exact read_shim_miss (fun t => t.load32) 4 (by decide) R cpu debugger address cycleCounter
      info m hd (fun w hw => by simpa [matchCondition] using h w hw)
  · intro h
    exact read_shim_miss (fun t => t.load16) 2 (by decide) R cpu debugger address cycleCounter
      info m hd (fun w hw => by simpa [matchCondition] using h w hw)
  · intro h
    exact read_shim_miss (fun t => t.load8) 1 (by decide) R cpu debugger address cycleCounter
      info m hd (fun w hw => by simpa [matchCondition] using h w hw)
  · intro h
    exact write_shim_miss (fun t => t.store32) 4 (by decide) R cpu debugger address (toI32 value)
      cycleCounter info m hd (fun w hw => by simpa [matchCondition] using h w hw)
  · intro h
    exact write_shim_miss (fun t => t.store16) 2 (by decide) R cpu debugger address (toI16 value)
      cycleCounter info m hd (fun w hw => by simpa [matchCondition] using h w hw)
  · intro h
    exact write_shim_miss (fun t => t.store8) 1 (by decide) R cpu debugger address (toI8 value)
      cycleCounter info m hd (fun w hw => by simpa [matchCondition] using h w hw)
  · intro h
    exact multiple_shim_miss (fun t => t.loadMultiple) WATCHPOINT_READ R cpu debugger address mask direction
      cycleCounter info m hd (fun i hi w hw => by simpa [matchCondition] using h i hi w hw)
  · intro h
    exact multiple_shim_miss (fun t => t.storeMultiple) WATCHPOINT_WRITE R cpu debugger address mask direction
      cycleCounter info m hd (fun i hi w hw => by simpa [matchCondition] using h i hi w hw)

/-- C3, at a concrete input: a 4-byte load at `0x1002` while the only
watchpoint, at `0x1000`, is a WRITE watchpoint. -/
theorem shim_transparent_witness :
    FIND_DEBUGGER (toyCore [⟨0x1000, WATCHPOINT_WRITE⟩]) = some 2 ∧
    DebuggerShim_load32 toyRoutines (toyCore [⟨0x1000, WATCHPOINT_WRITE⟩]) 0x1002 5 toyInfo
        toyStart =
      some (0xAABBCCDD,
        { state := toyStart.state
          trace := [Event.check 0x1002 WATCHPOINT_READ 0 4, Event.load (FnPtr.fn 0) 0x1002 5] }) :=
  ⟨by decide,
   (shim_transparent toyRoutines (toyCore [⟨0x1000, WATCHPOINT_WRITE⟩]) 2 0x1002 5 0 0 0
      toyInfo toyStart (by decide)).1 (by decide)⟩

/-! ## C4 -/

theorem checksOf_append (s t : List Event) : checksOf (s ++ t) = checksOf s ++ checksOf t := by
  simp [checksOf, List.filterMap_append]

theorem checksOf_checkOutcome (R : Routines σ) (d : Debugger ρ)
    (debugger address type newValue W : Nat) (m : Machine σ) :
    checksOf (checkOutcome R d debugger address type newValue W m).trace =
      checksOf m.trace ++ [(address, type, newValue, (W : Int))] := by
  unfold checkOutcome
  cases d.watchpoints.find? (fun w => matchCondition w address type W) with
  | none => simp [missOutcome, checksOf_append, checksOf]
  | some w => simp [hitOutcome, checksOf_append, checksOf]

theorem checksOf_fold_checkOutcome (R : Routines σ) (d : Debugger ρ) (debugger T : Nat)
    (as : List Nat) (m : Machine σ) :
    checksOf (as.foldl (fun m a => checkOutcome R d debugger a T 0 4 m) m).trace =
      checksOf m.trace ++ as.map (fun a => (a, T, 0, (4 : Int))) := by
  induction as generalizing m with
  | nil => simp
  | cons a rest ih =>
    rw [List.foldl_cons, ih, checksOf_checkOutcome]
    simp

theorem multiple_shim_checks (NAME : ARMMemory ρ → FnPtr) (T : Nat) (R : Routines σ)
    (cpu : ARMCore ρ) (debugger address : Nat) (mask : Int) (direction cycleCounter : Nat)
    (info : DebuggerEntryInfo) (m : Machine σ) (hd : FIND_DEBUGGER cpu = some debugger) :
    ∃ r, CREATE_MULTIPLE_WATCHPOINT_SHIM NAME T R cpu address mask direction cycleCounter info m
        = some r ∧
      checksOf r.2.trace = checksOf m.trace ++
        (List.range (popcount32 (toU32 mask))).map
          (fun i => (blockTransferAddress address (popcount32 (toU32 mask)) direction i,
            T, 0, (4 : Int))) := by
  refine ⟨_, multiple_shim_eq NAME T R cpu debugger address mask direction cycleCounter info m hd,
    ?_⟩
  have hlast : ∀ f a k dr c, checksOf [Event.multiple f a k dr c] = [] := by
    intro f a k dr c
    rfl
  simp only [callMultiple, checksOf_append, checksOf_fold_checkOutcome, hlast, List.map_map,
    Function.comp_def, List.append_nil]

/-- C4: block-transfer expansion.  With `k` the number of set bits of the
mask, `DebuggerShim_loadMultiple` and `DebuggerShim_storeMultiple` perform
exactly `k` watchpoint checks, each of width 4 (READ for the load, WRITE for
the store), at the word addresses number `i = 0 .. k-1`, in that order, where
the word address number `i` is, modulo 2^32, `address + 4i` (increment after),
`address + 4 + 4i` (increment before), `address - 4k + 4 + 4i` (decrement
after) and `address - 4k + 4i` (decrement before).  The checked addresses
depend on the mask through `k` only. -/
theorem block_transfer_expansion (R : Routines σ) (cpu : ARMCore ρ) (debugger address : Nat)
    (mask : Int) (direction cycleCounter : Nat) (info : DebuggerEntryInfo) (m : Machine σ)
    (hd : FIND_DEBUGGER cpu = some debugger) :
    (∃ r, DebuggerShim_loadMultiple R cpu address mask direction cycleCounter info m = some r ∧
      checksOf r.2.trace = checksOf m.trace ++
        (List.range (popcount32 (toU32 mask))).map
          (fun i => (blockTransferAddress address (popcount32 (toU32 mask)) direction i,
            WATCHPOINT_READ, 0, (4 : Int)))) ∧
    (∃ r, DebuggerShim_storeMultiple R cpu address mask direction cycleCounter info m = some r ∧
      checksOf r.2.trace = checksOf m.trace ++
        (List.range (popcount32 (toU32 mask))).map
          (fun i => (blockTransferAddress address (popcount32 (toU32 mask)) direction i,
            WATCHPOINT_WRITE, 0, (4 : Int)))) ∧
    (∀ k i : Nat, direction &&& LSM_D = 0 → direction &&& LSM_B = 0 →
      (blockTransferAddress address k direction i : Int) =
        ((address : Int) + 4 * i) % 4294967296) ∧
    (∀ k i : Nat, direction &&& LSM_D = 0 → direction &&& LSM_B ≠ 0 →
      (blockTransferAddress address k direction i : Int) =
        ((address : Int) + 4 + 4 * i) % 4294967296) ∧
    (∀ k i : Nat, direction &&& LSM_D ≠ 0 → direction &&& LSM_B = 0 →
      (blockTransferAddress address k direction i : Int) =
        ((address : Int) - 4 * k + 4 + 4 * i) % 4294967296) ∧
    (∀ k i : Nat, direction &&& LSM_D ≠ 0 → direction &&& LSM_B ≠ 0 →
      (blockTransferAddress address k direction i : Int) =
        ((address : Int) - 4 * k + 4 * i) % 4294967296) := by
  have hnat : ∀ x : Int, ((toU32 x : Nat) : Int) = x % 4294967296 := by
    intro x
    unfold toU32
    exact Int.toNat_of_nonneg (Int.emod_nonneg _ (by norm_num))
  refine ⟨?_, ?_, ?_, ?_, ?_, ?_⟩
  · exact multiple_shim_checks (fun t => t.loadMultiple) WATCHPOINT_READ R cpu debugger address
      mask direction cycleCounter info m hd
  · exact multiple_shim_checks (fun t => t.storeMultiple) WATCHPOINT_WRITE R cpu debugger address
      mask direction cycleCounter info m hd
  · intro k i hD hB
    simp only [blockTransferAddress, hD, hB, if_true, hnat]
  · intro k i hD hB
    simp only [blockTransferAddress, hD, hB, if_true, if_false, hnat]
  · intro k i hD hB
    simp only [blockTransferAddress, hD, hB, if_true, if_false, hnat]
  · intro k i hD hB
    simp only [blockTransferAddress, hD, hB, if_false, hnat]

/-- C4, at the input of example 3: a block store with three registers selected
(mask 7), increment after (direction 0), at `0x3000` checks `0x3000`, `0x3004`,
`0x3008` in that order. -/
theorem block_transfer_expansion_witness :
    FIND_DEBUGGER (toyCore []) = some 2 ∧
    ∃ r, DebuggerShim_storeMultiple toyRoutines (toyCore []) 0x3000 7 0 5 toyInfo toyStart
        = some r ∧
      checksOf r.2.trace =
        [(0x3000, WATCHPOINT_WRITE, 0, 4), (0x3004, WATCHPOINT_WRITE, 0, 4),
         (0x3008, WATCHPOINT_WRITE, 0, 4)] :=
  ⟨by decide,
   (block_transfer_expansion toyRoutines (toyCore []) 2 0x3000 7 0 5 toyInfo toyStart
      (by decide)).2.1⟩

/-! ## C5 -/

/-- C5: round trip.  `DebuggerInstallMemoryShim` followed by
`DebuggerRemoveMemoryShim` leaves `cpu->memory` equal, in every field, to its
value before the install. -/
theorem install_remove_round_trip (cpu : ARMCore ρ) (debugger : Nat) :
    (DebuggerRemoveMemoryShim (DebuggerInstallMemoryShim cpu debugger) debugger).memory =
      cpu.memory := by
  simp [DebuggerRemoveMemoryShim, DebuggerInstallMemoryShim]

/-! ## C6 -/

theorem checkLoop_at_index (R : Routines σ) (d : Debugger ρ) (address type newValue : Nat)
    (width : Int) (wps : List DebugWatchpoint) (i : Nat) (w : DebugWatchpoint)
    (info : DebuggerEntryInfo) (m : Machine σ) (hi : wps[i]? = some w)
    (hw : watchpointMatches w address type width = true)
    (hfirst : ∀ j < i, ∀ x, wps[j]? = some x → watchpointMatches x address type width = false) :
    checkLoop R d address type newValue width wps info m =
      (true,
       { (readOldValue R d address info width m).1 with
           newValue := newValue
           address := address
           watchType := w.type
           accessType := type },
       (readOldValue R d address info width m).2) := by
  induction wps generalizing i with
  | nil => simp at hi
  | cons x xs ih =>
    cases i with
    | zero =>
      simp at hi
      subst hi
      simp [checkLoop, hw]
    | succ k =>
      have hx : watchpointMatches x address type width = false :=
        hfirst 0 (by omega) x (by simp)
      simp only [checkLoop, hx]
      apply ih k
      · simpa using hi
      · intro j hj y hy
        exact hfirst (j + 1) (by omega) y (by simpa using hy)

theorem checkWatchpoints_at_index (R : Routines σ) (d : Debugger ρ)
    (address type newValue W : Nat) (info : DebuggerEntryInfo) (m : Machine σ)
    (hW : W = 1 ∨ W = 2 ∨ W = 4) (i : Nat) (w : DebugWatchpoint)
    (hi : d.watchpoints[i]? = some w)
    (hw : (w.address ^^^ address) &&& (4294967295 - (W - 1)) = 0 ∧ w.type &&& type ≠ 0)
    (hfirst : ∀ j < i, ∀ x, d.watchpoints[j]? = some x →
      ¬((x.address ^^^ address) &&& (4294967295 - (W - 1)) = 0 ∧ x.type &&& type ≠ 0)) :
    _checkWatchpoints R d address info type newValue (W : Int) m =
      (true,
       { address := address
         oldValue := (R.load (d.originalMemory.loadOfWidth W) m.state address 0).1
         newValue := newValue
         watchType := w.type
         accessType := type },
       { state := (R.load (d.originalMemory.loadOfWidth W) m.state address 0).2
         trace := m.trace ++
           [Event.check address type newValue (W : Int),
            Event.load (d.originalMemory.loadOfWidth W) address 0] }) := by
  unfold _checkWatchpoints
  rw [checkLoop_at_index R d address type newValue ((W : Int) - 1) d.watchpoints i w info _ hi
    ((watchpointMatches_iff w address type W hW).2 hw)
    (fun j hj x hx => by
      have := hfirst j hj x hx
      rw [← watchpointMatches_iff x address type W hW] at this
      simpa using this),
    readOldValue_eq _ _ _ _ _ _ hW]
  simp

/-- C6: first match wins.  When the watchpoint at index `i` satisfies the match
condition and no watchpoint at a smaller index does, `_checkWatchpoints`
returns true and the `watchType` it writes is the type of the watchpoint at
index `i`; the watchpoints at larger indices have no influence: any list that
agrees up to index `i` gives the same result, entry info and machine. -/
theorem first_match_wins (R : Routines σ) (d : Debugger ρ) (address type newValue W : Nat)
    (info : DebuggerEntryInfo) (m : Machine σ) (hW : W = 1 ∨ W = 2 ∨ W = 4) (i : Nat)
    (w : DebugWatchpoint) (hi : d.watchpoints[i]? = some w)
    (hw : (w.address ^^^ address) &&& (4294967295 - (W - 1)) = 0 ∧ w.type &&& type ≠ 0)
    (hfirst : ∀ j < i, ∀ x, d.watchpoints[j]? = some x →
      ¬((x.address ^^^ address) &&& (4294967295 - (W - 1)) = 0 ∧ x.type &&& type ≠ 0)) :
    (_checkWatchpoints R d address info type newValue (W : Int) m).1 = true ∧
    (_checkWatchpoints R d address info type newValue (W : Int) m).2.1.watchType = w.type ∧
    ∀ later : List DebugWatchpoint,
      _checkWatchpoints R { d with watchpoints := d.watchpoints.take (i + 1) ++ later } address
          info type newValue (W : Int) m =
        _checkWatchpoints R d address info type newValue (W : Int) m := by
  have h := checkWatchpoints_at_index R d address type newValue W info m hW i w hi hw hfirst
  refine ⟨by rw [h], by rw [h], ?_⟩
  intro later
  have hlen : i < d.watchpoints.length := by
    rcases Nat.lt_or_ge i d.watchpoints.length with h1 | h1
    · exact h1
    · rw [List.getElem?_eq_none h1] at hi
      cases hi
  have hget : ∀ j ≤ i, (d.watchpoints.take (i + 1) ++ later)[j]? = d.watchpoints[j]? := by
    intro j hj
    rw [List.getElem?_append_left (by rw [List.length_take]; omega),
      List.getElem?_take_of_lt (by omega)]
  rw [h]
  exact checkWatchpoints_at_index R { d with watchpoints := d.watchpoints.take (i + 1) ++ later }
    address type newValue W info m hW i w (by rw [← hi]; exact hget i (le_refl i)) hw
    (fun j hj x hx => hfirst j hj x (by rw [← hx]; exact (hget j (by omega)).symm))

/-- C6, at a concrete input: two watchpoints match a 4-byte store at `0x1002`;
the reported type is that of the first. -/
theorem first_match_wins_witness :
    ((4 : Nat) = 1 ∨ (4 : Nat) = 2 ∨ (4 : Nat) = 4) ∧
    (_checkWatchpoints toyRoutines
        (toyDebugger [⟨0x2000, 3⟩, ⟨0x1000, WATCHPOINT_WRITE⟩, ⟨0x1002, 3⟩]) 0x1002 toyInfo
        WATCHPOINT_WRITE 42 4 toyStart).2.1.watchType = WATCHPOINT_WRITE :=
  ⟨by decide,
   (first_match_wins toyRoutines
      (toyDebugger [⟨0x2000, 3⟩, ⟨0x1000, WATCHPOINT_WRITE⟩, ⟨0x1002, 3⟩]) 0x1002
      WATCHPOINT_WRITE 42 4 toyInfo toyStart (by decide) 1 ⟨0x1000, WATCHPOINT_WRITE⟩ rfl
      (by decide) (by decide)).2.1⟩

/-! ## C7 -/

/-- C7, as the code has it.  A load or store through the shim calls
`DebuggerEnter` exactly once, with reason `DEBUGGER_ENTER_WATCHPOINT`, when at
least one watchpoint matches the access (however many match), and never
otherwise.  On a hit the events of the call are, in this order: the check, one
call of the original load of the access width with a null cycle counter (the
read of the old value), the call of `DebuggerEnter`, and the forwarded call of
the original operation.  So the entry comes before the forwarded access, and
before any call of an original store, but after one call of the original load
of that width.  On a miss the events are the check and the forwarded call. -/
theorem shim_enter_order (R : Routines σ) (cpu : ARMCore ρ)
    (debugger address cycleCounter : Nat) (value : Int) (info : DebuggerEntryInfo)
    (m : Machine σ) (hd : FIND_DEBUGGER cpu = some debugger) :
    ((∃ w ∈ (cpu.object debugger).watchpoints,
        (w.address ^^^ address) &&& 4294967292 = 0 ∧ w.type &&& WATCHPOINT_READ ≠ 0) →
      ∃ watchType,
        (DebuggerShim_load32 R cpu address cycleCounter info m).map (fun r => r.2.trace) =
          some (m.trace ++
            [Event.check address WATCHPOINT_READ 0 4,
             Event.load (cpu.object debugger).originalMemory.load32 address 0,
             Event.enter debugger DEBUGGER_ENTER_WATCHPOINT
               { address := address
                 oldValue :=
                   (R.load (cpu.object debugger).originalMemory.load32 m.state address 0).1
                 newValue := 0
                 watchType := watchType
                 accessType := WATCHPOINT_READ },
             Event.load (cpu.object debugger).originalMemory.load32 address cycleCounter])) ∧
    ((∀ w ∈ (cpu.object debugger).watchpoints,
        ¬((w.address ^^^ address) &&& 4294967292 = 0 ∧ w.type &&& WATCHPOINT_READ ≠ 0)) →
      (DebuggerShim_load32 R cpu address cycleCounter info m).map (fun r => r.2.trace) =
        some (m.trace ++
          [Event.check address WATCHPOINT_READ 0 4,
           Event.load (cpu.object debugger).originalMemory.load32 address cycleCounter])) ∧
    ((∃ w ∈ (cpu.object debugger).watchpoints,
        (w.address ^^^ address) &&& 4294967294 = 0 ∧ w.type &&& WATCHPOINT_READ ≠ 0) →
      ∃ watchType,
        (DebuggerShim_load16 R cpu address cycleCounter info m).map (fun r => r.2.trace) =
          some (m.trace ++
            [Event.check address WATCHPOINT_READ 0 2,
             Event.load (cpu.object debugger).originalMemory.load16 address 0,
             Event.enter debugger DEBUGGER_ENTER_WATCHPOINT
               { address := address
                 oldValue :=
                   (R.load (cpu.object debugger).originalMemory.load16 m.state address 0).1
                 newValue := 0
                 watchType := watchType
                 accessType := WATCHPOINT_READ },
             Event.load (cpu.object debugger).originalMemory.load16 address cycleCounter])) ∧
    ((∀ w ∈ (cpu.object debugger).watchpoints,
        ¬((w.address ^^^ address) &&& 4294967294 = 0 ∧ w.type &&& WATCHPOINT_READ ≠ 0)) →
      (DebuggerShim_load16 R cpu address cycleCounter info m).map (fun r => r.2.trace) =
        some (m.trace ++
          [Event.check address WATCHPOINT_READ 0 2,
           Event.load (cpu.object debugger).originalMemory.load16 address cycleCounter])) ∧
    ((∃ w ∈ (cpu.object debugger).watchpoints,
        (w.address ^^^ address) &&& 4294967295 = 0 ∧ w.type &&& WATCHPOINT_READ ≠ 0) →
      ∃ watchType,
        (DebuggerShim_load8 R cpu address cycleCounter info m).map (fun r => r.2.trace) =
          some (m.trace ++
            [Event.check address WATCHPOINT_READ 0 1,
             Event.load (cpu.object debugger).originalMemory.load8 address 0,
             Event.enter debugger DEBUGGER_ENTER_WATCHPOINT
               { address := address
                 oldValue :=
                   (R.load (cpu.object debugger).originalMemory.load8 m.state address 0).1
                 newValue := 0
                 watchType := watchType
                 accessType := WATCHPOINT_READ },
             Event.load (cpu.object debugger).originalMemory.load8 address cycleCounter])) ∧
    ((∀ w ∈ (cpu.object debugger).watchpoints,
        ¬((w.address ^^^ address) &&& 4294967295 = 0 ∧ w.type &&& WATCHPOINT_READ ≠ 0)) →
      (DebuggerShim_load8 R cpu address cycleCounter info m).map (fun r => r.2.trace) =
        some (m.trace ++
          [Event.check address WATCHPOINT_READ 0 1,
           Event.load (cpu.object debugger).originalMemory.load8 address cycleCounter])) ∧
    ((∃ w ∈ (cpu.object debugger).watchpoints,
        (w.address ^^^ address) &&& 4294967292 = 0 ∧ w.type &&& WATCHPOINT_WRITE ≠ 0) →
      ∃ watchType,
        (DebuggerShim_store32 R cpu address value cycleCounter info m).map (fun r => r.trace) =
          some (m.trace ++
            [Event.check address WATCHPOINT_WRITE (toU32 (toI32 value)) 4,
             Event.load (cpu.object debugger).originalMemory.load32 address 0,
             Event.enter debugger DEBUGGER_ENTER_WATCHPOINT
               { address := address
                 oldValue :=
                   (R.load (cpu.object debugger).originalMemory.load32 m.state address 0).1
                 newValue := toU32 (toI32 value)
                 watchType := watchType
                 accessType := WATCHPOINT_WRITE },
             Event.store (cpu.object debugger).originalMemory.store32 address (toI32 value)
               cycleCounter])) ∧
    ((∀ w ∈ (cpu.object debugger).watchpoints,
        ¬((w.address ^^^ address) &&& 4294967292 = 0 ∧ w.type &&& WATCHPOINT_WRITE ≠ 0)) →
      (DebuggerShim_store32 R cpu address value cycleCounter info m).map (fun r => r.trace) =
        some (m.trace ++
          [Event.check address WATCHPOINT_WRITE (toU32 (toI32 value)) 4,
           Event.store (cpu.object debugger).originalMemory.store32 address (toI32 value)
             cycleCounter])) ∧
    ((∃ w ∈ (cpu.object debugger).watchpoints,
        (w.address ^^^ address) &&& 4294967294 = 0 ∧ w.type &&& WATCHPOINT_WRITE ≠ 0) →
      ∃ watchType,
        (DebuggerShim_store16 R cpu address value cycleCounter info m).map (fun r => r.trace) =
          some (m.trace ++
            [Event.check address WATCHPOINT_WRITE (toU32 (toI16 value)) 2,
             Event.load (cpu.object debugger).originalMemory.load16 address 0,
             Event.enter debugger DEBUGGER_ENTER_WATCHPOINT
               { address := address
                 oldValue :=
                   (R.load (cpu.object debugger).originalMemory.load16 m.state address 0).1
                 newValue := toU32 (toI16 value)
                 watchType := watchType
                 accessType := WATCHPOINT_WRITE },
             Event.store (cpu.object debugger).originalMemory.store16 address (toI16 value)
               cycleCounter])) ∧
    ((∀ w ∈ (cpu.object debugger).watchpoints,
        ¬((w.address ^^^ address) &&& 4294967294 = 0 ∧ w.type &&& WATCHPOINT_WRITE ≠ 0)) →
      (DebuggerShim_store16 R cpu address value cycleCounter info m).map (fun r => r.trace) =
        some (m.trace ++
          [Event.check address WATCHPOINT_WRITE (toU32 (toI16 value)) 2,
           Event.store (cpu.object debugger).originalMemory.store16 address (toI16 value)
             cycleCounter])) ∧
    ((∃ w ∈ (cpu.object debugger).watchpoints,
        (w.address ^^^ address) &&& 4294967295 = 0 ∧ w.type &&& WATCHPOINT_WRITE ≠ 0) →
      ∃ watchType,
        (DebuggerShim_store8 R cpu address value cycleCounter info m).map (fun r => r.trace) =
          some (m.trace ++
            [Event.check address WATCHPOINT_WRITE (toU32 (toI8 value)) 1,
             Event.load (cpu.object debugger).originalMemory.load8 address 0,
             Event.enter debugger DEBUGGER_ENTER_WATCHPOINT
               { address := address
                 oldValue :=
                   (R.load (cpu.object debugger).originalMemory.load8 m.state address 0).1
                 newValue := toU32 (toI8 value)
                 watchType := watchType
                 accessType := WATCHPOINT_WRITE },
             Event.store (cpu.object debugger).originalMemory.store8 address (toI8 value)
               cycleCounter])) ∧
    ((∀ w ∈ (cpu.object debugger).watchpoints,
        ¬((w.address ^^^ address) &&& 4294967295 = 0 ∧ w.type &&& WATCHPOINT_WRITE ≠ 0)) →
      (DebuggerShim_store8 R cpu address value cycleCounter info m).map (fun r => r.trace) =
        some (m.trace ++
          [Event.check address WATCHPOINT_WRITE (toU32 (toI8 value)) 1,
           Event.store (cpu.object debugger).originalMemory.store8 address (toI8 value)
             cycleCounter])) := by
  refine ⟨?_, ?_, ?_, ?_, ?_, ?_, ?_, ?_, ?_, ?_, ?_, ?_⟩
  · rintro ⟨w, hw, h1, h2⟩
    exact read_shim_hit_trace (fun t => t.load32) 4 (by decide) R cpu debugger address
      cycleCounter info m hd ⟨w, hw, by simp [matchCondition, h1, h2]⟩
  · intro h
    have e := read_shim_miss (fun t => t.load32) 4 (by decide) R cpu debugger address cycleCounter
      info m hd (fun w hw => by simpa [matchCondition] using h w hw)
    simp only [DebuggerShim_load32, Nat.cast_ofNat, Nat.cast_one] at e ⊢
    rw [e]
    rfl
  · rintro ⟨w, hw, h1, h2⟩
    exact read_shim_hit_trace (fun t => t.load16) 2 (by decide) R cpu debugger address
      cycleCounter info m hd ⟨w, hw, by simp [matchCondition, h1, h2]⟩
  · intro h
    have e := read_shim_miss (fun t => t.load16) 2 (by decide) R cpu debugger address cycleCounter
      info m hd (fun w hw => by simpa [matchCondition] using h w hw)
    simp only [DebuggerShim_load16, Nat.cast_ofNat, Nat.cast_one] at e ⊢
    rw [e]
    rfl
  · rintro ⟨w, hw, h1, h2⟩
    exact read_shim_hit_trace (fun t => t.load8) 1 (by decide) R cpu debugger address
      cycleCounter info m hd ⟨w, hw, by simp [matchCondition, h1, h2]⟩
  · intro h
    have e := read_shim_miss (fun t => t.load8) 1 (by decide) R cpu debugger address cycleCounter
      info m hd (fun w hw => by simpa [matchCondition] using h w hw)
    simp only [DebuggerShim_load8, Nat.cast_ofNat, Nat.cast_one] at e ⊢
    rw [e]
    rfl
  · rintro ⟨w, hw, h1, h2⟩
    exact write_shim_hit_trace (fun t => t.store32) 4 (by decide) R cpu debugger address
      (toI32 value) cycleCounter info m hd ⟨w, hw, by simp [matchCondition, h1, h2]⟩
  · intro h
    have e := write_shim_miss (fun t => t.store32) 4 (by decide) R cpu debugger address
      (toI32 value) cycleCounter info m hd (fun w hw => by simpa [matchCondition] using h w hw)
    simp only [DebuggerShim_store32, Nat.cast_ofNat, Nat.cast_one] at e ⊢
    rw [e]
    rfl
  · rintro ⟨w, hw, h1, h2⟩
    exact write_shim_hit_trace (fun t => t.store16) 2 (by decide) R cpu debugger address
      (toI16 value) cycleCounter info m hd ⟨w, hw, by simp [matchCondition, h1, h2]⟩
  · intro h
    have e := write_shim_miss (fun t => t.store16) 2 (by decide) R cpu debugger address
      (toI16 value) cycleCounter info m hd (fun w hw => by simpa [matchCondition] using h w hw)
    simp only [DebuggerShim_store16, Nat.cast_ofNat, Nat.cast_one] at e ⊢
    rw [e]
    rfl
  · rintro ⟨w, hw, h1, h2⟩
    exact write_shim_hit_trace (fun t => t.store8) 1 (by decide) R cpu debugger address
      (toI8 value) cycleCounter info m hd ⟨w, hw, by simp [matchCondition, h1, h2]⟩
  · intro h
    have e := write_shim_miss (fun t => t.store8) 1 (by decide) R cpu debugger address
      (toI8 value) cycleCounter info m hd (fun w hw => by simpa [matchCondition] using h w hw)
    simp only [DebuggerShim_store8, Nat.cast_ofNat, Nat.cast_one] at e ⊢
    rw [e]
    rfl

/-- C7, as the code has it, at a concrete input: two watchpoints match a 4-byte
store at `0x1002`; `DebuggerEnter` is called once, after the read of the old
value and before the store. -/
theorem shim_enter_order_witness :
    FIND_DEBUGGER (toyCore [⟨0x1000, WATCHPOINT_WRITE⟩, ⟨0x1002, 3⟩]) = some 2 ∧
    ∃ watchType,
      (DebuggerShim_store32 toyRoutines (toyCore [⟨0x1000, WATCHPOINT_WRITE⟩, ⟨0x1002, 3⟩])
          0x1002 42 5 toyInfo toyStart).map (fun r => r.trace) =
        some
          [Event.check 0x1002 WATCHPOINT_WRITE 42 4,
           Event.load (FnPtr.fn 0) 0x1002 0,
           Event.enter 2 DEBUGGER_ENTER_WATCHPOINT
             { address := 0x1002
               oldValue := 0xAABBCCDD
               newValue := 42
               watchType := watchType
               accessType := WATCHPOINT_WRITE },
           Event.store (FnPtr.fn 3) 0x1002 42 5] :=
  ⟨by decide,
   (shim_enter_order toyRoutines (toyCore [⟨0x1000, WATCHPOINT_WRITE⟩, ⟨0x1002, 3⟩]) 2 0x1002 5
      42 toyInfo toyStart (by decide)).2.2.2.2.2.2.1
      ⟨⟨0x1000, WATCHPOINT_WRITE⟩, by decide, by decide⟩⟩

/-- C7, as stated, fails for a load: a 2-byte load at `0x2000` through the shim
of the small machine, with a READ watchpoint at `0x2000`, calls the original
`load16` (the function `fn 1`) before it calls `DebuggerEnter`. -/
theorem enter_after_original_load_counterexample :
    (DebuggerShim_load16 toyRoutines (toyCore [⟨0x2000, WATCHPOINT_READ⟩]) 0x2000 5 toyInfo
        toyStart).map (fun r => r.2.trace) =
      some
        [Event.check 0x2000 WATCHPOINT_READ 0 2,
         Event.load (FnPtr.fn 1) 0x2000 0,
         Event.enter 2 DEBUGGER_ENTER_WATCHPOINT
           { address := 0x2000
             oldValue := 0
             newValue := 0
             watchType := WATCHPOINT_READ
             accessType := WATCHPOINT_READ },
         Event.load (FnPtr.fn 1) 0x2000 5] ∧
    ¬ (∀ r, DebuggerShim_load16 toyRoutines (toyCore [⟨0x2000, WATCHPOINT_READ⟩]) 0x2000 5
          toyInfo toyStart = some r →
        ∀ pre post info, r.2.trace = pre ++ Event.enter 2 DEBUGGER_ENTER_WATCHPOINT info :: post →
          ∀ e ∈ pre, ∀ a c, e ≠ Event.load (FnPtr.fn 1) a c) := by
  refine ⟨by decide, ?_⟩
  intro h
  exact h _ rfl
    [Event.check 0x2000 WATCHPOINT_READ 0 2, Event.load (FnPtr.fn 1) 0x2000 0]
    [Event.load (FnPtr.fn 1) 0x2000 5]
    { address := 0x2000
      oldValue := 0
      newValue := 0
      watchType := WATCHPOINT_READ
      accessType := WATCHPOINT_READ }
    (by decide) (Event.load (FnPtr.fn 1) 0x2000 0) (by simp) 0x2000 0 rfl

/-! ## C8 -/

theorem write_shim_store_once (NAME : ARMMemory ρ → FnPtr) (W : Nat)
    (hW : W = 1 ∨ W = 2 ∨ W = 4) (R : Routines σ) (cpu : ARMCore ρ) (debugger address : Nat)
    (value : Int) (cycleCounter : Nat) (info : DebuggerEntryInfo) (m : Machine σ)
    (hd : FIND_DEBUGGER cpu = some debugger) :
    ∃ pre s,
      CREATE_WATCHPOINT_WRITE_SHIM NAME (W : Int) R cpu address value cycleCounter info m =
        some
          { state := R.store (NAME (cpu.object debugger).originalMemory) s address value cycleCounter
            trace := m.trace ++
              (Event.check address WATCHPOINT_WRITE (toU32 value) (W : Int) :: pre) ++
              [Event.store (NAME (cpu.object debugger).originalMemory) address value
                cycleCounter] } ∧
      ∀ e ∈ pre, ∀ f a v c, e ≠ Event.store f a v c := by
  rw [write_shim_eq NAME W hW R cpu debugger address value cycleCounter info m hd]
  unfold checkOutcome
  cases (cpu.object debugger).watchpoints.find?
      (fun w => matchCondition w address WATCHPOINT_WRITE W) with
  | none =>
    exact ⟨[], m.state, by simp [callStore, missOutcome], by simp⟩
  | some w =>
    refine ⟨[Event.load ((cpu.object debugger).originalMemory.loadOfWidth W) address 0,
      Event.enter debugger DEBUGGER_ENTER_WATCHPOINT
        (hitInfo address
          (R.load ((cpu.object debugger).originalMemory.loadOfWidth W) m.state address 0).1
          (toU32 value) w.type WATCHPOINT_WRITE)],
      R.enter (R.load ((cpu.object debugger).originalMemory.loadOfWidth W) m.state address 0).2
        debugger DEBUGGER_ENTER_WATCHPOINT
        (hitInfo address
          (R.load ((cpu.object debugger).originalMemory.loadOfWidth W) m.state address 0).1
          (toU32 value) w.type WATCHPOINT_WRITE), ?_, ?_⟩
    · simp only [callStore, hitOutcome, List.cons_append, List.nil_append, List.append_assoc]
    · intro e he f a v c
      simp at he
      rcases he with rfl | rfl <;> simp

/-- C8: a watchpoint observes and never blocks.  Every store through the shim,
whether or not a watchpoint matches, calls the original store of the same
width exactly once, with the address, value and cycle counter it was given; the
call is the last event, after the watchpoint check.  The value is the argument
as the `int32_t`, `int16_t` or `int8_t` parameter holds it, which is the
argument itself when it is in the range of that type. -/
theorem store_never_blocked (R : Routines σ) (cpu : ARMCore ρ)
    (debugger address cycleCounter : Nat) (value : Int) (info : DebuggerEntryInfo)
    (m : Machine σ) (hd : FIND_DEBUGGER cpu = some debugger) :
    (∃ pre s,
      DebuggerShim_store32 R cpu address value cycleCounter info m =
        some
          { state :=
              R.store (cpu.object debugger).originalMemory.store32 s address (toI32 value) cycleCounter
            trace := m.trace ++ (Event.check address WATCHPOINT_WRITE (toU32 (toI32 value)) 4 :: pre) ++
              [Event.store (cpu.object debugger).originalMemory.store32 address (toI32 value)
                cycleCounter] } ∧
      ∀ e ∈ pre, ∀ f a v c, e ≠ Event.store f a v c) ∧
    (∃ pre s,
      DebuggerShim_store16 R cpu address value cycleCounter info m =
        some
          { state :=
              R.store (cpu.object debugger).originalMemory.store16 s address (toI16 value) cycleCounter
            trace := m.trace ++ (Event.check address WATCHPOINT_WRITE (toU32 (toI16 value)) 2 :: pre) ++
              [Event.store (cpu.object debugger).originalMemory.store16 address (toI16 value)
                cycleCounter] } ∧
      ∀ e ∈ pre, ∀ f a v c, e ≠ Event.store f a v c) ∧
    (∃ pre s,
      DebuggerShim_store8 R cpu address value cycleCounter info m =
        some
          { state :=
              R.store (cpu.object debugger).originalMemory.store8 s address (toI8 value) cycleCounter
            trace := m.trace ++ (Event.check address WATCHPOINT_WRITE (toU32 (toI8 value)) 1 :: pre) ++
              [Event.store (cpu.object debugger).originalMemory.store8 address (toI8 value)
                cycleCounter] } ∧
      ∀ e ∈ pre, ∀ f a v c, e ≠ Event.store f a v c) ∧
    (-2147483648 ≤ value → value ≤ 2147483647 → toI32 value = value) ∧
    (-32768 ≤ value → value ≤ 32767 → toI16 value = value) ∧
    (-128 ≤ value → value ≤ 127 → toI8 value = value) := by
  refine ⟨?_, ?_, ?_, toI32_of_range value, toI16_of_range value, toI8_of_range value⟩
  · exact write_shim_store_once (fun t => t.store32) 4 (by decide) R cpu debugger address
      (toI32 value) cycleCounter info m hd
  · exact write_shim_store_once (fun t => t.store16) 2 (by decide) R cpu debugger address
      (toI16 value) cycleCounter info m hd
  · exact write_shim_store_once (fun t => t.store8) 1 (by decide) R cpu debugger address
      (toI8 value) cycleCounter info m hd

/-- C8, at a concrete input: a 4-byte store at `0x1002` that hits the watchpoint
at `0x1000` still reaches the original `store32`, and the cell holds 42. -/
theorem store_never_blocked_witness :
    FIND_DEBUGGER (toyCore [⟨0x1000, WATCHPOINT_WRITE⟩]) = some 2 ∧
    (DebuggerShim_store32 toyRoutines (toyCore [⟨0x1000, WATCHPOINT_WRITE⟩]) 0x1002 42 5
        toyInfo toyStart).map (fun r => (r.state.read 0x1002, r.trace.getLast?)) =
      some (42, some (Event.store (FnPtr.fn 3) 0x1002 42 5)) :=
  ⟨by decide, by
    obtain ⟨pre, s, h, _⟩ := (store_never_blocked toyRoutines
      (toyCore [⟨0x1000, WATCHPOINT_WRITE⟩]) 2 0x1002 5 42 toyInfo toyStart (by decide)).1
    rw [h]
    have hl : ∀ (a : Event) (l : List Event) (x : Event),
        (a :: (l ++ [x])).getLast? = some x := by
      intro a l x
      rw [← List.cons_append, List.getLast?_concat]
    simp [toyRoutines, Toy.read, List.lookup, toyCore, toyDebugger, toyMemory]
    exact ⟨by decide, hl _ _ _⟩⟩

/-! ## C9 -/

theorem entriesOf_append (s t : List Event) : entriesOf (s ++ t) = entriesOf s ++ entriesOf t := by
  simp [entriesOf, List.filterMap_append]

theorem checkOutcome_step (R : Routines σ) (d : Debugger ρ)
    (debugger address type newValue W : Nat) (m : Machine σ) :
    ∃ pre, (checkOutcome R d debugger address type newValue W m).trace = m.trace ++ pre ∧
      (entriesOf pre).map (fun e => (e.1, e.2.1, e.2.2.address, e.2.2.accessType)) =
        (if anyMatch d.watchpoints address type W then
          [(debugger, DEBUGGER_ENTER_WATCHPOINT, address, type)]
        else []) ∧
      (∀ e ∈ pre, ∀ f a k dr c, e ≠ Event.multiple f a k dr c) ∧
      (∀ e ∈ entriesOf pre, e.2.2.newValue = newValue) := by
  unfold checkOutcome anyMatch
  cases hf : d.watchpoints.find? (fun w => matchCondition w address type W) with
  | none =>
    have : d.watchpoints.any (fun w => matchCondition w address type W) = false := by
      rw [List.any_eq_false]
      intro w hw
      simpa using List.find?_eq_none.1 hf w hw
    refine ⟨[Event.check address type newValue (W : Int)], by simp [missOutcome], ?_, ?_, ?_⟩
    · simp [this, entriesOf]
    · intro e he
      simp at he
      subst he
      simp
    · simp [entriesOf]
  | some w =>
    obtain ⟨_, _, _, _, h3⟩ := find_eq_some_split _ _ _ hf
    have : d.watchpoints.any (fun w => matchCondition w address type W) = true :=
      List.any_eq_true.2 ⟨w, List.mem_of_find?_eq_some hf, h3⟩
    refine ⟨[Event.check address type newValue (W : Int),
      Event.load (d.originalMemory.loadOfWidth W) address 0,
      Event.enter debugger DEBUGGER_ENTER_WATCHPOINT
        (hitInfo address (R.load (d.originalMemory.loadOfWidth W) m.state address 0).1 newValue
          w.type type)], by simp only [hitOutcome], ?_, ?_, ?_⟩
    · simp [this, entriesOf, hitInfo]
    · intro e he
      simp at he
      rcases he with rfl | rfl | rfl <;> simp
    · simp [entriesOf, hitInfo]

theorem fold_checkOutcome_entries (R : Routines σ) (d : Debugger ρ) (debugger T : Nat)
    (as : List Nat) (m : Machine σ) :
    ∃ pre, (as.foldl (fun m a => checkOutcome R d debugger a T 0 4 m) m).trace = m.trace ++ pre ∧
      (entriesOf pre).map (fun e => (e.1, e.2.1, e.2.2.address, e.2.2.accessType)) =
        (as.filter (fun a => anyMatch d.watchpoints a T 4)).map
          (fun a => (debugger, DEBUGGER_ENTER_WATCHPOINT, a, T)) ∧
      (∀ e ∈ pre, ∀ f a k dr c, e ≠ Event.multiple f a k dr c) ∧
      (∀ e ∈ entriesOf pre, e.2.2.newValue = 0) := by
  induction as generalizing m with
  | nil => exact ⟨[], by simp, by simp [entriesOf], by simp, by simp [entriesOf]⟩
  | cons a rest ih =>
    obtain ⟨p1, h1, h2, h3, h4⟩ := checkOutcome_step R d debugger a T 0 4 m
    obtain ⟨p2, g1, g2, g3, g4⟩ := ih (checkOutcome R d debugger a T 0 4 m)
    refine ⟨p1 ++ p2, ?_, ?_, ?_, ?_⟩
    · rw [List.foldl_cons, g1, h1, List.append_assoc]
    · rw [entriesOf_append, List.map_append, h2, g2, List.filter_cons]
      by_cases hm : anyMatch d.watchpoints a T 4 = true
      · simp [hm]
      · simp [hm]
    · intro e he
      rcases List.mem_append.1 he with he | he
      · exact h3 e he
      · exact g3 e he
    · intro e he
      rw [entriesOf_append] at he
      rcases List.mem_append.1 he with he | he
      · exact h4 e he
      · exact g4 e he

theorem multiple_shim_entries (NAME : ARMMemory ρ → FnPtr) (T : Nat) (R : Routines σ)
    (cpu : ARMCore ρ) (debugger address : Nat) (mask : Int) (direction cycleCounter : Nat)
    (info : DebuggerEntryInfo) (m : Machine σ) (hd : FIND_DEBUGGER cpu = some debugger) :
    ∃ pre s,
      CREATE_MULTIPLE_WATCHPOINT_SHIM NAME T R cpu address mask direction cycleCounter info m =
        some
          ((R.multiple (NAME (cpu.object debugger).originalMemory) s address mask direction
              cycleCounter).1,
           { state :=
               (R.multiple (NAME (cpu.object debugger).originalMemory) s address mask direction
                 cycleCounter).2
             trace := m.trace ++ pre ++
               [Event.multiple (NAME (cpu.object debugger).originalMemory) address mask direction
                 cycleCounter] }) ∧
      (entriesOf pre).map (fun e => (e.1, e.2.1, e.2.2.address, e.2.2.accessType)) =
        (((List.range (popcount32 (toU32 mask))).map
            (blockTransferAddress address (popcount32 (toU32 mask)) direction)).filter
          (fun a => anyMatch (cpu.object debugger).watchpoints a T 4)).map
          (fun a => (debugger, DEBUGGER_ENTER_WATCHPOINT, a, T)) ∧
      ∀ e ∈ pre, ∀ f a k dr c, e ≠ Event.multiple f a k dr c := by
  obtain ⟨pre, h1, h2, h3, _⟩ := fold_checkOutcome_entries R (cpu.object debugger) debugger T
    ((List.range (popcount32 (toU32 mask))).map
      (blockTransferAddress address (popcount32 (toU32 mask)) direction)) m
  refine ⟨pre,
    (((List.range (popcount32 (toU32 mask))).map
        (blockTransferAddress address (popcount32 (toU32 mask)) direction)).foldl
      (fun m a => checkOutcome R (cpu.object debugger) debugger a T 0 4 m) m).state, ?_, h2, h3⟩
  rw [multiple_shim_eq NAME T R cpu debugger address mask direction cycleCounter info m hd]
  simp only [callMultiple, h1]

/-- C9: per-word independence.  A block transfer through the shim calls
`DebuggerEnter` once for each word address of the expansion that hits a
watchpoint (READ for `loadMultiple`, WRITE for `storeMultiple`, width 4), in
the order of the expansion, and for no other word; after all checks the
original block transfer is called exactly once, with the address, mask,
direction and cycle counter the shim was given, and its result is returned. -/
theorem block_transfer_entries (R : Routines σ) (cpu : ARMCore ρ) (debugger address : Nat)
    (mask : Int) (direction cycleCounter : Nat) (info : DebuggerEntryInfo) (m : Machine σ)
    (hd : FIND_DEBUGGER cpu = some debugger) :
    (∃ pre s,
      DebuggerShim_loadMultiple R cpu address mask direction cycleCounter info m =
        some
          ((R.multiple (cpu.object debugger).originalMemory.loadMultiple s address mask direction
              cycleCounter).1,
           { state :=
               (R.multiple (cpu.object debugger).originalMemory.loadMultiple s address mask direction
                 cycleCounter).2
             trace := m.trace ++ pre ++
               [Event.multiple (cpu.object debugger).originalMemory.loadMultiple address mask direction
                 cycleCounter] }) ∧
      (entriesOf pre).map (fun e => (e.1, e.2.1, e.2.2.address, e.2.2.accessType)) =
        (((List.range (popcount32 (toU32 mask))).map
            (blockTransferAddress address (popcount32 (toU32 mask)) direction)).filter
          (fun a => anyMatch (cpu.object debugger).watchpoints a WATCHPOINT_READ 4)).map
          (fun a => (debugger, DEBUGGER_ENTER_WATCHPOINT, a, WATCHPOINT_READ)) ∧
      ∀ e ∈ pre, ∀ f a k dr c, e ≠ Event.multiple f a k dr c) ∧
    (∃ pre s,
      DebuggerShim_storeMultiple R cpu address mask direction cycleCounter info m =
        some
          ((R.multiple (cpu.object debugger).originalMemory.storeMultiple s address mask direction
              cycleCounter).1,
           { state :=
               (R.multiple (cpu.object debugger).originalMemory.storeMultiple s address mask direction
                 cycleCounter).2
             trace := m.trace ++ pre ++
               [Event.multiple (cpu.object debugger).originalMemory.storeMultiple address mask direction
                 cycleCounter] }) ∧
      (entriesOf pre).map (fun e => (e.1, e.2.1, e.2.2.address, e.2.2.accessType)) =
        (((List.range (popcount32 (toU32 mask))).map
            (blockTransferAddress address (popcount32 (toU32 mask)) direction)).filter
          (fun a => anyMatch (cpu.object debugger).watchpoints a WATCHPOINT_WRITE 4)).map
          (fun a => (debugger, DEBUGGER_ENTER_WATCHPOINT, a, WATCHPOINT_WRITE)) ∧
      ∀ e ∈ pre, ∀ f a k dr c, e ≠ Event.multiple f a k dr c) := by
  refine ⟨?_, ?_⟩
  · exact multiple_shim_entries (fun t => t.loadMultiple) WATCHPOINT_READ R cpu debugger address mask direction
      cycleCounter info m hd
  · exact multiple_shim_entries (fun t => t.storeMultiple) WATCHPOINT_WRITE R cpu debugger address mask direction
      cycleCounter info m hd

/-- C9, at a concrete input: of the three words of a block store at `0x3000`
the first and the third hit a watchpoint, the second does not. -/
theorem block_transfer_entries_witness :
    FIND_DEBUGGER (toyCore [⟨0x3000, WATCHPOINT_WRITE⟩, ⟨0x3008, 3⟩]) = some 2 ∧
    ∃ pre s,
      DebuggerShim_storeMultiple toyRoutines (toyCore [⟨0x3000, WATCHPOINT_WRITE⟩, ⟨0x3008, 3⟩])
          0x3000 7 0 5 toyInfo toyStart =
        some
          ((toyRoutines.multiple (FnPtr.fn 7) s 0x3000 7 0 5).1,
           { state := (toyRoutines.multiple (FnPtr.fn 7) s 0x3000 7 0 5).2
             trace := [] ++ pre ++ [Event.multiple (FnPtr.fn 7) 0x3000 7 0 5] }) ∧
      (entriesOf pre).map (fun e => (e.1, e.2.1, e.2.2.address, e.2.2.accessType)) =
        [(2, DEBUGGER_ENTER_WATCHPOINT, 0x3000, WATCHPOINT_WRITE),
         (2, DEBUGGER_ENTER_WATCHPOINT, 0x3008, WATCHPOINT_WRITE)] ∧
      ∀ e ∈ pre, ∀ f a k dr c, e ≠ Event.multiple f a k dr c :=
  ⟨by decide,
   (block_transfer_entries toyRoutines (toyCore [⟨0x3000, WATCHPOINT_WRITE⟩, ⟨0x3008, 3⟩]) 2
      0x3000 7 0 5 toyInfo toyStart (by decide)).2⟩

/-! ## C10 -/

theorem lsmLoop_succ (T : Nat) (R : Routines σ) (cpu : ARMCore ρ) (debugger : Nat) (base : Int)
    (info : DebuggerEntryInfo) (n : Nat) (m : Machine σ) :
    lsmLoop T R cpu debugger base info (n + 1) m =
      checkAndEnter R cpu debugger (toU32 (base + 4 * (n : Int))) info T 0 4
        (lsmLoop T R cpu debugger base info n m) := by
  simp [lsmLoop, List.range_succ, List.foldl_append]

/-- C10, as the code has it.  A block store through the shim runs the loop of
lines 72-77 and then the original block store.  For every word address of the
expansion that hits a WRITE watchpoint, the entry raised for that word has
`newValue` 0 (the shim passes the constant 0 to `_checkWatchpoints`), and
`oldValue` the result of the original 4-byte load at that word address, called
before the transfer, on the machine state reached after the checks of the
earlier words.  No entry of the call has a `newValue` other than 0. -/
theorem store_multiple_entry_values (R : Routines σ) (cpu : ARMCore ρ) (debugger address : Nat)
    (mask : Int) (direction cycleCounter : Nat) (info : DebuggerEntryInfo) (m : Machine σ)
    (hd : FIND_DEBUGGER cpu = some debugger) :
    DebuggerShim_storeMultiple R cpu address mask direction cycleCounter info m =
      some (callMultiple R (cpu.object debugger).originalMemory.storeMultiple address mask
        direction cycleCounter
        (lsmLoop WATCHPOINT_WRITE R cpu debugger
          (lsmBase address (popcount32 (toU32 mask)) direction) info (popcount32 (toU32 mask))
          m)) ∧
    (∀ i < popcount32 (toU32 mask),
      (∃ w ∈ (cpu.object debugger).watchpoints,
        (w.address ^^^ blockTransferAddress address (popcount32 (toU32 mask)) direction i) &&&
            4294967292 = 0 ∧ w.type &&& WATCHPOINT_WRITE ≠ 0) →
      ∃ watchType,
        lsmLoop WATCHPOINT_WRITE R cpu debugger
            (lsmBase address (popcount32 (toU32 mask)) direction) info (i + 1) m =
          { state :=
              R.enter
                (R.load (cpu.object debugger).originalMemory.load32
                  (lsmLoop WATCHPOINT_WRITE R cpu debugger
                    (lsmBase address (popcount32 (toU32 mask)) direction) info i m).state
                  (blockTransferAddress address (popcount32 (toU32 mask)) direction i) 0).2
                debugger DEBUGGER_ENTER_WATCHPOINT
                { address := blockTransferAddress address (popcount32 (toU32 mask)) direction i
                  oldValue :=
                    (R.load (cpu.object debugger).originalMemory.load32
                      (lsmLoop WATCHPOINT_WRITE R cpu debugger
                        (lsmBase address (popcount32 (toU32 mask)) direction) info i m).state
                      (blockTransferAddress address (popcount32 (toU32 mask)) direction i) 0).1
                  newValue := 0
                  watchType := watchType
                  accessType := WATCHPOINT_WRITE }
            trace :=
              (lsmLoop WATCHPOINT_WRITE R cpu debugger
                (lsmBase address (popcount32 (toU32 mask)) direction) info i m).trace ++
              [Event.check (blockTransferAddress address (popcount32 (toU32 mask)) direction i)
                 WATCHPOINT_WRITE 0 4,
               Event.load (cpu.object debugger).originalMemory.load32
                 (blockTransferAddress address (popcount32 (toU32 mask)) direction i) 0,
               Event.enter debugger DEBUGGER_ENTER_WATCHPOINT
                 { address := blockTransferAddress address (popcount32 (toU32 mask)) direction i
                   oldValue :=
                     (R.load (cpu.object debugger).originalMemory.load32
                       (lsmLoop WATCHPOINT_WRITE R cpu debugger
                         (lsmBase address (popcount32 (toU32 mask)) direction) info i m).state
                       (blockTransferAddress address (popcount32 (toU32 mask)) direction i) 0).1
                   newValue := 0
                   watchType := watchType
                   accessType := WATCHPOINT_WRITE }] }) ∧
    (∃ pre,
      (lsmLoop WATCHPOINT_WRITE R cpu debugger
          (lsmBase address (popcount32 (toU32 mask)) direction) info (popcount32 (toU32 mask))
          m).trace = m.trace ++ pre ∧
      ∀ e ∈ entriesOf pre, e.2.2.newValue = 0) := by
  refine ⟨?_, ?_, ?_⟩
  · simp only [DebuggerShim_storeMultiple, CREATE_MULTIPLE_WATCHPOINT_SHIM, hd]
  · rintro i _ ⟨w, hw, h1, h2⟩
    obtain ⟨w2, _, _, hw2⟩ := checkOutcome_of_hit R (cpu.object debugger) debugger
      (blockTransferAddress address (popcount32 (toU32 mask)) direction i) WATCHPOINT_WRITE 0 4
      (lsmLoop WATCHPOINT_WRITE R cpu debugger
        (lsmBase address (popcount32 (toU32 mask)) direction) info i m)
      ⟨w, hw, by simp [matchCondition, h1, h2]⟩
    refine ⟨w2.type, ?_⟩
    have h4 := checkAndEnter_eq_checkOutcome R cpu debugger
      (blockTransferAddress address (popcount32 (toU32 mask)) direction i) info WATCHPOINT_WRITE
      0 4 (lsmLoop WATCHPOINT_WRITE R cpu debugger
        (lsmBase address (popcount32 (toU32 mask)) direction) info i m) (by decide)
    rw [lsmLoop_succ, lsm_address_eq]
    simp only [Nat.cast_ofNat] at h4
    rw [h4, hw2]
    simp [hitOutcome, hitInfo, ARMMemory.loadOfWidth]
  · rw [lsmLoop_eq]
    obtain ⟨pre, h1, _, _, h4⟩ := fold_checkOutcome_entries R (cpu.object debugger) debugger
      WATCHPOINT_WRITE ((List.range (popcount32 (toU32 mask))).map
        (blockTransferAddress address (popcount32 (toU32 mask)) direction)) m
    exact ⟨pre, h1, h4⟩

/-- C10, as the code has it, at a concrete input: a block store of `r0 = 5` to
`0x3000`, where a WRITE watchpoint sits. -/
theorem store_multiple_entry_values_witness :
    FIND_DEBUGGER (toyCore [⟨0x3000, WATCHPOINT_WRITE⟩]) = some 2 ∧
    ∃ pre,
      (lsmLoop WATCHPOINT_WRITE toyRoutines (toyCore [⟨0x3000, WATCHPOINT_WRITE⟩]) 2
          (lsmBase 0x3000 1 0) toyInfo 1 toyStart).trace = [] ++ pre ∧
      ∀ e ∈ entriesOf pre, e.2.2.newValue = 0 :=
  ⟨by decide,
   (store_multiple_entry_values toyRoutines (toyCore [⟨0x3000, WATCHPOINT_WRITE⟩]) 2 0x3000 1 0
      5 toyInfo toyStart (by decide)).2.2⟩

/-- C10, as stated, fails: the small machine stores `r0 = 5` to
`0x3000` with a block store (mask 1, increment after); the WRITE watchpoint at
`0x3000` hits, the entry reports `newValue = 0`, and the word written to
`0x3000` is 5. -/
theorem store_multiple_new_value_counterexample :
    (DebuggerShim_storeMultiple toyRoutines (toyCore [⟨0x3000, WATCHPOINT_WRITE⟩]) 0x3000 1 0 5
        toyInfo toyStart).map (fun r => (entriesOf r.2.trace, r.2.state.read 0x3000)) =
      some
        ([(2, DEBUGGER_ENTER_WATCHPOINT,
            { address := 0x3000
              oldValue := 9
              newValue := 0
              watchType := WATCHPOINT_WRITE
              accessType := WATCHPOINT_WRITE })], 5) ∧
    ¬ (∀ r, DebuggerShim_storeMultiple toyRoutines (toyCore [⟨0x3000, WATCHPOINT_WRITE⟩]) 0x3000
          1 0 5 toyInfo toyStart = some r →
        ∀ e ∈ entriesOf r.2.trace, e.2.2.newValue = r.2.state.read e.2.2.address) := by
  refine ⟨by decide, ?_⟩
  intro h
  have h2 := h _ rfl
    (2, DEBUGGER_ENTER_WATCHPOINT,
      { address := 0x3000
        oldValue := 9
        newValue := 0
        watchType := WATCHPOINT_WRITE
        accessType := WATCHPOINT_WRITE }) (by decide)
  revert h2
  decide

/-! ## C11 -/

/-- C11, as the code has it.  `DebuggerInstallMemoryShim` has no guard: every
call saves the table that is active at the call.  After one install the saved
`originalMemory` is the table from before the install.  After a second install
the saved `originalMemory` is the table the first install left, whose nine
operation bindings are the shims, and a following remove leaves that table,
shims included, as the active one. -/
theorem install_overwrites_snapshot (cpu : ARMCore ρ) (debugger : Nat) :
    ((DebuggerInstallMemoryShim cpu debugger).object debugger).originalMemory = cpu.memory ∧
    ((DebuggerInstallMemoryShim (DebuggerInstallMemoryShim cpu debugger) debugger).object
        debugger).originalMemory =
      { cpu.memory with
        store32 := FnPtr.DebuggerShim_store32
        store16 := FnPtr.DebuggerShim_store16
        store8 := FnPtr.DebuggerShim_store8
        load32 := FnPtr.DebuggerShim_load32
        load16 := FnPtr.DebuggerShim_load16
        load8 := FnPtr.DebuggerShim_load8
        storeMultiple := FnPtr.DebuggerShim_storeMultiple
        loadMultiple := FnPtr.DebuggerShim_loadMultiple
        setActiveRegion := FnPtr.DebuggerShim_setActiveRegion } ∧
    (DebuggerRemoveMemoryShim
        (DebuggerInstallMemoryShim (DebuggerInstallMemoryShim cpu debugger) debugger)
        debugger).memory =
      (DebuggerInstallMemoryShim cpu debugger).memory := by
  refine ⟨?_, ?_, ?_⟩ <;> simp [DebuggerInstallMemoryShim, DebuggerRemoveMemoryShim]

/-- C11, as stated, fails: on the small machine, after two installs the saved
`originalMemory` is not the table that was active before the first install,
and a following remove does not bring that table back. -/
theorem double_install_counterexample :
    ((DebuggerInstallMemoryShim (DebuggerInstallMemoryShim (toyCore []) 2) 2).object
        2).originalMemory ≠ (toyCore []).memory ∧
    ((DebuggerInstallMemoryShim (DebuggerInstallMemoryShim (toyCore []) 2) 2).object
        2).originalMemory.load32 = FnPtr.DebuggerShim_load32 ∧
    (DebuggerRemoveMemoryShim (DebuggerInstallMemoryShim (DebuggerInstallMemoryShim (toyCore []) 2) 2)
        2).memory ≠ (toyCore []).memory := by
  refine ⟨?_, ?_, ?_⟩ <;> simp [DebuggerInstallMemoryShim, DebuggerRemoveMemoryShim, toyCore, toyMemory]

/-! ## C12 -/

theorem find_debugger_none (cpu : ARMCore ρ)
    (h : ∀ c ∈ cpu.components, (cpu.object c).id ≠ DEBUGGER_ID) : FIND_DEBUGGER cpu = none := by
  unfold FIND_DEBUGGER
  rw [List.find?_eq_none]
  intro c hc
  simpa using h c hc

theorem find_debugger_first (cpu : ARMCore ρ) (before : List Nat) (p : Nat) (later : List Nat)
    (hs : cpu.components = before ++ p :: later)
    (hb : ∀ c ∈ before, (cpu.object c).id ≠ DEBUGGER_ID)
    (hp : (cpu.object p).id = DEBUGGER_ID) : FIND_DEBUGGER cpu = some p := by
  unfold FIND_DEBUGGER
  rw [hs]
  clear hs
  induction before with
  | nil => simp [hp]
  | cons x xs ih =>
    have hx : (cpu.object x).id ≠ DEBUGGER_ID := hb x (by simp)
    simp only [List.cons_append]
    rw [List.find?_cons_of_neg _ (by simpa using hx)]
    exact ih (fun c hc => hb c (by simp [hc]))

/-- C12: missing debugger.  When no component of the processor has the id
`DEBUGGER_ID`, the scan leaves the null pointer, the shim dereferences it, and
each of the nine shims has no result: nothing is checked and nothing is
forwarded.  When a component with that id exists, the scan returns the first
one in component order, and each shim works on the watchpoints and the saved
table of that one. -/
theorem missing_debugger_fails (R : Routines σ) (cpu : ARMCore ρ) (address cycleCounter : Nat)
    (value mask : Int) (direction : Nat) (info : DebuggerEntryInfo) (m : Machine σ) :
    ((∀ c ∈ cpu.components, (cpu.object c).id ≠ DEBUGGER_ID) →
      FIND_DEBUGGER cpu = none ∧
      DebuggerShim_load32 R cpu address cycleCounter info m = none ∧
      DebuggerShim_load16 R cpu address cycleCounter info m = none ∧
      DebuggerShim_load8 R cpu address cycleCounter info m = none ∧
      DebuggerShim_store32 R cpu address value cycleCounter info m = none ∧
      DebuggerShim_store16 R cpu address value cycleCounter info m = none ∧
      DebuggerShim_store8 R cpu address value cycleCounter info m = none ∧
      DebuggerShim_loadMultiple R cpu address mask direction cycleCounter info m = none ∧
      DebuggerShim_storeMultiple R cpu address mask direction cycleCounter info m = none ∧
      DebuggerShim_setActiveRegion R cpu address m = none) ∧
    (∀ (before : List Nat) (p : Nat) (later : List Nat),
      cpu.components = before ++ p :: later →
      (∀ c ∈ before, (cpu.object c).id ≠ DEBUGGER_ID) →
      (cpu.object p).id = DEBUGGER_ID →
      FIND_DEBUGGER cpu = some p ∧
      DebuggerShim_load32 R cpu address cycleCounter info m =
        some (callLoad R (cpu.object p).originalMemory.load32 address cycleCounter
          (checkAndEnter R cpu p address info WATCHPOINT_READ 0 4 m)) ∧
      DebuggerShim_load16 R cpu address cycleCounter info m =
        some (callLoad R (cpu.object p).originalMemory.load16 address cycleCounter
          (checkAndEnter R cpu p address info WATCHPOINT_READ 0 2 m)) ∧
      DebuggerShim_load8 R cpu address cycleCounter info m =
        some (callLoad R (cpu.object p).originalMemory.load8 address cycleCounter
          (checkAndEnter R cpu p address info WATCHPOINT_READ 0 1 m)) ∧
      DebuggerShim_store32 R cpu address value cycleCounter info m =
        some (callStore R (cpu.object p).originalMemory.store32 address (toI32 value) cycleCounter
          (checkAndEnter R cpu p address info WATCHPOINT_WRITE (toU32 (toI32 value)) 4 m)) ∧
      DebuggerShim_store16 R cpu address value cycleCounter info m =
        some (callStore R (cpu.object p).originalMemory.store16 address (toI16 value) cycleCounter
          (checkAndEnter R cpu p address info WATCHPOINT_WRITE (toU32 (toI16 value)) 2 m)) ∧
      DebuggerShim_store8 R cpu address value cycleCounter info m =
        some (callStore R (cpu.object p).originalMemory.store8 address (toI8 value) cycleCounter
          (checkAndEnter R cpu p address info WATCHPOINT_WRITE (toU32 (toI8 value)) 1 m)) ∧
      DebuggerShim_loadMultiple R cpu address mask direction cycleCounter info m =
        some (callMultiple R (cpu.object p).originalMemory.loadMultiple address mask direction
          cycleCounter
          (lsmLoop WATCHPOINT_READ R cpu p (lsmBase address (popcount32 (toU32 mask)) direction) info
            (popcount32 (toU32 mask)) m)) ∧
      DebuggerShim_storeMultiple R cpu address mask direction cycleCounter info m =
        some (callMultiple R (cpu.object p).originalMemory.storeMultiple address mask direction
          cycleCounter
          (lsmLoop WATCHPOINT_WRITE R cpu p (lsmBase address (popcount32 (toU32 mask)) direction) info
            (popcount32 (toU32 mask)) m)) ∧
      DebuggerShim_setActiveRegion R cpu address m =
        some (callRegion R (cpu.object p).originalMemory.setActiveRegion address m)) := by
  constructor
  · intro h
    have hn := find_debugger_none cpu h
    simp [hn, DebuggerShim_load32, DebuggerShim_load16, DebuggerShim_load8, DebuggerShim_store32,
      DebuggerShim_store16, DebuggerShim_store8, DebuggerShim_loadMultiple,
      DebuggerShim_storeMultiple, DebuggerShim_setActiveRegion, CREATE_WATCHPOINT_READ_SHIM,
      CREATE_WATCHPOINT_WRITE_SHIM, CREATE_MULTIPLE_WATCHPOINT_SHIM]
  · intro before p later hs hb hp
    have hf := find_debugger_first cpu before p later hs hb hp
    simp [hf, DebuggerShim_load32, DebuggerShim_load16, DebuggerShim_load8, DebuggerShim_store32,
      DebuggerShim_store16, DebuggerShim_store8, DebuggerShim_loadMultiple,
      DebuggerShim_storeMultiple, DebuggerShim_setActiveRegion, CREATE_WATCHPOINT_READ_SHIM,
      CREATE_WATCHPOINT_WRITE_SHIM, CREATE_MULTIPLE_WATCHPOINT_SHIM]

/-- C12, at concrete inputs: a core whose only component is not a debugger, and
the core of the small machine, whose second component is the first debugger. -/
theorem missing_debugger_fails_witness :
    DebuggerShim_load8 toyRoutines { toyCore [] with components := [1] } 0x3000 5 toyInfo
        toyStart = none ∧
    FIND_DEBUGGER (toyCore []) = some 2 :=
  ⟨((missing_debugger_fails toyRoutines { toyCore [] with components := [1] } 0x3000 5 0 0 0
      toyInfo toyStart).1 (by decide)).2.2.2.1,
   ((missing_debugger_fails toyRoutines (toyCore []) 0x3000 5 0 0 0 toyInfo toyStart).2
      [1] 2 [] rfl (by decide) (by decide)).1⟩

/-! ## C13 -/

/-- C13: install postcondition.  After `DebuggerInstallMemoryShim` the saved
`originalMemory` is the access table as it was before the call, each of the
nine operation bindings of `cpu->memory` is the shim of the same name, and
nothing else changes: not the other fields of `cpu->memory`, not the other
fields of the debugger (the watchpoint list among them), not the component
array, not any other object. -/
theorem install_postcondition (cpu : ARMCore ρ) (debugger : Nat) :
    ((DebuggerInstallMemoryShim cpu debugger).object debugger).originalMemory = cpu.memory ∧
    (DebuggerInstallMemoryShim cpu debugger).memory.load32 = FnPtr.DebuggerShim_load32 ∧
    (DebuggerInstallMemoryShim cpu debugger).memory.load16 = FnPtr.DebuggerShim_load16 ∧
    (DebuggerInstallMemoryShim cpu debugger).memory.load8 = FnPtr.DebuggerShim_load8 ∧
    (DebuggerInstallMemoryShim cpu debugger).memory.store32 = FnPtr.DebuggerShim_store32 ∧
    (DebuggerInstallMemoryShim cpu debugger).memory.store16 = FnPtr.DebuggerShim_store16 ∧
    (DebuggerInstallMemoryShim cpu debugger).memory.store8 = FnPtr.DebuggerShim_store8 ∧
    (DebuggerInstallMemoryShim cpu debugger).memory.loadMultiple =
      FnPtr.DebuggerShim_loadMultiple ∧
    (DebuggerInstallMemoryShim cpu debugger).memory.storeMultiple =
      FnPtr.DebuggerShim_storeMultiple ∧
    (DebuggerInstallMemoryShim cpu debugger).memory.setActiveRegion =
      FnPtr.DebuggerShim_setActiveRegion ∧
    (DebuggerInstallMemoryShim cpu debugger).memory.rest = cpu.memory.rest ∧
    ((DebuggerInstallMemoryShim cpu debugger).object debugger).watchpoints =
      (cpu.object debugger).watchpoints ∧
    ((DebuggerInstallMemoryShim cpu debugger).object debugger).id = (cpu.object debugger).id ∧
    (DebuggerInstallMemoryShim cpu debugger).components = cpu.components ∧
    (∀ q, q ≠ debugger → (DebuggerInstallMemoryShim cpu debugger).object q = cpu.object q) := by
  refine ⟨?_, ?_, ?_, ?_, ?_, ?_, ?_, ?_, ?_, ?_, ?_, ?_, ?_, ?_, ?_⟩ <;>
    first
    | (intro q hq; simp [DebuggerInstallMemoryShim, Function.update_noteq hq])
    | simp [DebuggerInstallMemoryShim]

/-! ## C14 -/

/-- C14: `DebuggerShim_setActiveRegion` is pure delegation.  Whatever the
address and the watchpoints, the only event of the call is one call of the
original `setActiveRegion` with the same address: no watchpoint check, no read
of an old value, no debugger entry; the machine state is the one the original
leaves. -/
theorem setActiveRegion_pure_delegation (R : Routines σ) (cpu : ARMCore ρ)
    (debugger address : Nat) (m : Machine σ) (hd : FIND_DEBUGGER cpu = some debugger) :
    DebuggerShim_setActiveRegion R cpu address m =
      some
        { state := R.region (cpu.object debugger).originalMemory.setActiveRegion m.state address
          trace := m.trace ++
            [Event.region (cpu.object debugger).originalMemory.setActiveRegion address] } := by
  simp [DebuggerShim_setActiveRegion, hd, callRegion]

/-- C14, at a concrete input: a region change to `0x3000` while a watchpoint of
both types sits at `0x3000`. -/
theorem setActiveRegion_pure_delegation_witness :
    FIND_DEBUGGER (toyCore [⟨0x3000, 3⟩]) = some 2 ∧
    DebuggerShim_setActiveRegion toyRoutines (toyCore [⟨0x3000, 3⟩]) 0x3000 toyStart =
      some { state := toyStart.state, trace := [Event.region (FnPtr.fn 8) 0x3000] } :=
  ⟨by decide,
   setActiveRegion_pure_delegation toyRoutines (toyCore [⟨0x3000, 3⟩]) 2 0x3000 toyStart
     (by decide)⟩

/-! ## C15 -/

/-- C15: the mask test is the aligned-block test.  For 32-bit `A` and `a` and
`W` in {1, 2, 4}, the condition of line 97, with the `int` width decremented,
complemented and converted to `uint32_t`, holds exactly when `A` and `a` have
the same quotient by `W`; this is also how the test of `_checkWatchpoints` for
one watchpoint reads; for `W = 1` the condition is `A = a`. -/
theorem mask_test_is_block_test (A a W : Nat) (hW : W = 1 ∨ W = 2 ∨ W = 4)
    (hA : A < 4294967296) (ha : a < 4294967296) :
    ((A ^^^ a) &&& toU32 (bitNot ((W : Int) - 1)) = 0 ↔ A / W = a / W) ∧
    (∀ t type : Nat,
      watchpointMatches ⟨A, t⟩ a type ((W : Int) - 1) = true ↔
        (A / W = a / W ∧ t &&& type ≠ 0)) ∧
    (W = 1 → ((A ^^^ a) &&& toU32 (bitNot ((W : Int) - 1)) = 0 ↔ A = a)) := by
  have key : (A ^^^ a) &&& toU32 (bitNot ((W : Int) - 1)) = 0 ↔ A / W = a / W := by
    rw [toU32_bitNot_width W hW]
    exact mask_test_iff_same_block W A a hW hA ha
  refine ⟨key, ?_, ?_⟩
  · intro t type
    rw [watchpointMatches_iff ⟨A, t⟩ a type W hW, ← toU32_bitNot_width W hW]
    exact and_congr_left (fun _ => key)
  · intro h1
    rw [key, h1, Nat.div_one, Nat.div_one]

/-- C15, at a concrete input: `0x1000` and `0x1002` lie in the same 4-byte block. -/
theorem mask_test_is_block_test_witness :
    ((4 : Nat) = 1 ∨ (4 : Nat) = 2 ∨ (4 : Nat) = 4) ∧ (0x1000 : Nat) < 4294967296 ∧
    (0x1002 : Nat) < 4294967296 ∧
    (((0x1000 : Nat) ^^^ 0x1002) &&& toU32 (bitNot (((4 : Nat) : Int) - 1)) = 0 ↔
      (0x1000 : Nat) / 4 = 0x1002 / 4) :=
  ⟨by decide, by decide, by decide,
   (mask_test_is_block_test 0x1000 0x1002 4 (by decide) (by decide) (by decide)).1⟩

/-! ## C16 -/

theorem and_mask_mono (x M N : Nat) (hMN : M &&& N = N) (h : x &&& M = 0) : x &&& N = 0 := by
  rw [← hMN, ← Nat.and_assoc, h, Nat.zero_and]

theorem matchCondition_mono (w : DebugWatchpoint) (address type W V : Nat)
    (hWV : (W = 1 ∧ V = 2) ∨ (W = 2 ∧ V = 4))
    (h : matchCondition w address type W = true) : matchCondition w address type V = true := by
  simp only [matchCondition, Bool.and_eq_true, beq_iff_eq] at h ⊢
  refine ⟨?_, h.2⟩
  rcases hWV with ⟨rfl, rfl⟩ | ⟨rfl, rfl⟩
  · exact and_mask_mono _ 4294967295 4294967294 (by decide) h.1
  · exact and_mask_mono _ 4294967294 4294967292 (by decide) h.1

theorem first_match_index_exists (wps : List DebugWatchpoint) (address type V i : Nat)
    (w : DebugWatchpoint) (hi : wps[i]? = some w) (hw : matchCondition w address type V = true) :
    ∃ j ≤ i, ∃ w2, wps[j]? = some w2 ∧ matchCondition w2 address type V = true ∧
      ∀ l < j, ∀ x, wps[l]? = some x → matchCondition x address type V = false := by
  classical
  have hex : ∃ j, ∃ w2, wps[j]? = some w2 ∧ matchCondition w2 address type V = true :=
    ⟨i, w, hi, hw⟩
  obtain ⟨w2, h1, h2⟩ := Nat.find_spec hex
  refine ⟨Nat.find hex, Nat.find_min' hex ⟨w, hi, hw⟩, w2, h1, h2, ?_⟩
  intro l hl x hx
  have := Nat.find_min hex hl
  cases hc : matchCondition x address type V with
  | false => rfl
  | true => exact absurd ⟨x, hx, hc⟩ this

/-- C16: width monotonicity.  If `_checkWatchpoints` returns true at width 1 it
returns true at width 2, and if it returns true at width 2 it returns true at
width 4, for the same watchpoints, address and access type.  Moreover, when the
first match at the smaller width is at index `i`, the first match at the larger
width is at an index `j ≤ i`, and the `watchType` reported at the larger width
is the type of the watchpoint at `j`. -/
theorem width_monotone (R : Routines σ) (d : Debugger ρ) (address type newValue : Nat)
    (info : DebuggerEntryInfo) (m : Machine σ) :
    ((_checkWatchpoints R d address info type newValue 1 m).1 = true →
      (_checkWatchpoints R d address info type newValue 2 m).1 = true) ∧
    ((_checkWatchpoints R d address info type newValue 2 m).1 = true →
      (_checkWatchpoints R d address info type newValue 4 m).1 = true) ∧
    (∀ W V : Nat, (W = 1 ∧ V = 2) ∨ (W = 2 ∧ V = 4) →
      ∀ (i : Nat) (w : DebugWatchpoint), d.watchpoints[i]? = some w →
        ((w.address ^^^ address) &&& (4294967295 - (W - 1)) = 0 ∧ w.type &&& type ≠ 0) →
        (∀ j < i, ∀ x, d.watchpoints[j]? = some x →
          ¬((x.address ^^^ address) &&& (4294967295 - (W - 1)) = 0 ∧ x.type &&& type ≠ 0)) →
        ∃ j ≤ i, ∃ w2, d.watchpoints[j]? = some w2 ∧
          ((w2.address ^^^ address) &&& (4294967295 - (V - 1)) = 0 ∧ w2.type &&& type ≠ 0) ∧
          (∀ l < j, ∀ x, d.watchpoints[l]? = some x →
            ¬((x.address ^^^ address) &&& (4294967295 - (V - 1)) = 0 ∧ x.type &&& type ≠ 0)) ∧
          (_checkWatchpoints R d address info type newValue (V : Int) m).1 = true ∧
          (_checkWatchpoints R d address info type newValue (V : Int) m).2.1.watchType =
            w2.type) := by
  have hmc : ∀ (x : DebugWatchpoint) (U : Nat),
      matchCondition x address type U = true ↔
        ((x.address ^^^ address) &&& (4294967295 - (U - 1)) = 0 ∧ x.type &&& type ≠ 0) := by
    intro x U
    simp [matchCondition]
  have step : ∀ W V : Nat, (W = 1 ∧ V = 2) ∨ (W = 2 ∧ V = 4) →
      (_checkWatchpoints R d address info type newValue (W : Int) m).1 = true →
      (_checkWatchpoints R d address info type newValue (V : Int) m).1 = true := by
    intro W V hWV h
    have hW : W = 1 ∨ W = 2 ∨ W = 4 := by rcases hWV with ⟨h1, _⟩ | ⟨h1, _⟩ <;> simp [h1]
    have hV : V = 1 ∨ V = 2 ∨ V = 4 := by rcases hWV with ⟨_, h1⟩ | ⟨_, h1⟩ <;> simp [h1]
    rw [checkWatchpoints_fst, List.any_eq_true] at h ⊢
    obtain ⟨x, hx, hm⟩ := h
    rw [watchpointMatches_eq_matchCondition x address type W hW] at hm
    refine ⟨x, hx, ?_⟩
    rw [watchpointMatches_eq_matchCondition x address type V hV]
    exact matchCondition_mono x address type W V hWV hm
  refine ⟨step 1 2 (Or.inl ⟨rfl, rfl⟩), step 2 4 (Or.inr ⟨rfl, rfl⟩), ?_⟩
  intro W V hWV i w hi hw _
  have hV : V = 1 ∨ V = 2 ∨ V = 4 := by rcases hWV with ⟨_, h1⟩ | ⟨_, h1⟩ <;> simp [h1]
  obtain ⟨j, hj, w2, h1, h2, h3⟩ := first_match_index_exists d.watchpoints address type V i w hi
    (matchCondition_mono w address type W V hWV ((hmc w W).2 hw))
  have h3' : ∀ l < j, ∀ x, d.watchpoints[l]? = some x →
      ¬((x.address ^^^ address) &&& (4294967295 - (V - 1)) = 0 ∧ x.type &&& type ≠ 0) := by
    intro l hl x hx hc
    have := h3 l hl x hx
    rw [(hmc x V).2 hc] at this
    cases this
  have hres := checkWatchpoints_at_index R d address type newValue V info m hV j w2 h1
    ((hmc w2 V).1 h2) h3'
  exact ⟨j, hj, w2, h1, (hmc w2 V).1 h2, h3', by rw [hres], by rw [hres]⟩

/-- C16, at a concrete input: a 1-byte store at `0x1003` first matches the
watchpoint at index 1; at width 2 the watchpoint at `0x1002`, at index 0,
matches first. -/
theorem width_monotone_witness :
    (_checkWatchpoints toyRoutines (toyDebugger [⟨0x1002, 3⟩, ⟨0x1003, WATCHPOINT_WRITE⟩]) 0x1003
        toyInfo WATCHPOINT_WRITE 0 1 toyStart).1 = true ∧
    (_checkWatchpoints toyRoutines (toyDebugger [⟨0x1002, 3⟩, ⟨0x1003, WATCHPOINT_WRITE⟩]) 0x1003
        toyInfo WATCHPOINT_WRITE 0 2 toyStart).1 = true :=
  ⟨by decide,
   (width_monotone toyRoutines (toyDebugger [⟨0x1002, 3⟩, ⟨0x1003, WATCHPOINT_WRITE⟩]) 0x1003
      WATCHPOINT_WRITE 0 toyInfo toyStart).1 (by decide)⟩

/-! ## C17 -/

theorem write_shim_hit_entries (NAME : ARMMemory ρ → FnPtr) (W : Nat)
    (hW : W = 1 ∨ W = 2 ∨ W = 4) (R : Routines σ) (cpu : ARMCore ρ) (debugger address : Nat)
    (value : Int) (cycleCounter : Nat) (info : DebuggerEntryInfo) (m : Machine σ)
    (hd : FIND_DEBUGGER cpu = some debugger)
    (h : ∃ w ∈ (cpu.object debugger).watchpoints,
      matchCondition w address WATCHPOINT_WRITE W = true) :
    ∃ oldValue watchType,
      (CREATE_WATCHPOINT_WRITE_SHIM NAME (W : Int) R cpu address value cycleCounter info m).map
          (fun r => entriesOf r.trace) =
        some (entriesOf m.trace ++
          [(debugger, DEBUGGER_ENTER_WATCHPOINT,
            { address := address
              oldValue := oldValue
              newValue := toU32 value
              watchType := watchType
              accessType := WATCHPOINT_WRITE })]) := by
  obtain ⟨w, _, _, hw⟩ := checkOutcome_of_hit R (cpu.object debugger) debugger address
    WATCHPOINT_WRITE (toU32 value) W m h
  refine ⟨(R.load ((cpu.object debugger).originalMemory.loadOfWidth W) m.state address 0).1,
    w.type, ?_⟩
  rw [write_shim_eq NAME W hW R cpu debugger address value cycleCounter info m hd, hw]
  simp [callStore, hitOutcome, hitInfo, entriesOf_append, entriesOf]

/-- C17: narrow stores report a sign-extended new value.  The `newValue` of the
entry raised by `store16` (resp. `store8`) on a hit is the `int16_t` (resp.
`int8_t`) the shim received, converted to `uint32_t`.  That signed value lies
in the range of its type and has the bit pattern of the argument; `newValue` is
the signed value modulo 2^32; when the top bit of the pattern is set the signed
value is negative and `newValue` is the signed value plus 2^32, at least
`0xFFFF8000` (resp. `0xFFFFFF80`); otherwise `newValue` is the signed value.
A `store8` of `0xFF` reports `0xFFFFFFFF`, not `0xFF`.  For `store32` the
`newValue` is the argument modulo 2^32, the 32-bit pattern read as unsigned. -/
theorem narrow_store_new_value (R : Routines σ) (cpu : ARMCore ρ)
    (debugger address cycleCounter : Nat) (value : Int) (info : DebuggerEntryInfo)
    (m : Machine σ) (hd : FIND_DEBUGGER cpu = some debugger) :
    ((∃ w ∈ (cpu.object debugger).watchpoints,
        (w.address ^^^ address) &&& 4294967292 = 0 ∧ w.type &&& WATCHPOINT_WRITE ≠ 0) →
      ∃ oldValue watchType,
        (DebuggerShim_store32 R cpu address value cycleCounter info m).map
            (fun r => entriesOf r.trace) =
          some (entriesOf m.trace ++
            [(debugger, DEBUGGER_ENTER_WATCHPOINT,
              { address := address
                oldValue := oldValue
                newValue := toU32 (toI32 value)
                watchType := watchType
                accessType := WATCHPOINT_WRITE })])) ∧
    ((∃ w ∈ (cpu.object debugger).watchpoints,
        (w.address ^^^ address) &&& 4294967294 = 0 ∧ w.type &&& WATCHPOINT_WRITE ≠ 0) →
      ∃ oldValue watchType,
        (DebuggerShim_store16 R cpu address value cycleCounter info m).map
            (fun r => entriesOf r.trace) =
          some (entriesOf m.trace ++
            [(debugger, DEBUGGER_ENTER_WATCHPOINT,
              { address := address
                oldValue := oldValue
                newValue := toU32 (toI16 value)
                watchType := watchType
                accessType := WATCHPOINT_WRITE })])) ∧
    ((∃ w ∈ (cpu.object debugger).watchpoints,
        (w.address ^^^ address) &&& 4294967295 = 0 ∧ w.type &&& WATCHPOINT_WRITE ≠ 0) →
      ∃ oldValue watchType,
        (DebuggerShim_store8 R cpu address value cycleCounter info m).map
            (fun r => entriesOf r.trace) =
          some (entriesOf m.trace ++
            [(debugger, DEBUGGER_ENTER_WATCHPOINT,
              { address := address
                oldValue := oldValue
                newValue := toU32 (toI8 value)
                watchType := watchType
                accessType := WATCHPOINT_WRITE })])) ∧
    ((-32768 ≤ toI16 value ∧ toI16 value ≤ 32767) ∧ toI16 value % 65536 = value % 65536 ∧
      (toI16 value < 0 ↔ 32768 ≤ value % 65536)) ∧
    ((toU32 (toI16 value) : Int) = toI16 value % 4294967296) ∧
    (32768 ≤ value % 65536 →
      (toU32 (toI16 value) : Int) = toI16 value + 4294967296 ∧
      4294934528 ≤ toU32 (toI16 value)) ∧
    (value % 65536 < 32768 → (toU32 (toI16 value) : Int) = toI16 value) ∧
    ((-128 ≤ toI8 value ∧ toI8 value ≤ 127) ∧ toI8 value % 256 = value % 256 ∧
      (toI8 value < 0 ↔ 128 ≤ value % 256)) ∧
    ((toU32 (toI8 value) : Int) = toI8 value % 4294967296) ∧
    (128 ≤ value % 256 →
      (toU32 (toI8 value) : Int) = toI8 value + 4294967296 ∧
      4294967168 ≤ toU32 (toI8 value)) ∧
    (value % 256 < 128 → (toU32 (toI8 value) : Int) = toI8 value) ∧
    (toI8 0xFF = -1 ∧ toU32 (toI8 0xFF) = 0xFFFFFFFF ∧ toU32 (toI8 0xFF) ≠ 0xFF) ∧
    ((toU32 (toI32 value) : Int) = value % 4294967296) := by
  refine ⟨?_, ?_, ?_, ⟨toI16_range value, toI16_pattern value, toI16_neg_iff value⟩,
    toU32_cast _, ?_, ?_, ⟨toI8_range value, toI8_pattern value, toI8_neg_iff value⟩,
    toU32_cast _, ?_, ?_, by decide, ?_⟩
  · rintro ⟨w, hw, h1, h2⟩
    exact write_shim_hit_entries (fun t => t.store32) 4 (by decide) R cpu debugger address
      (toI32 value) cycleCounter info m hd ⟨w, hw, by simp [matchCondition, h1, h2]⟩
  · rintro ⟨w, hw, h1, h2⟩
    exact write_shim_hit_entries (fun t => t.store16) 2 (by decide) R cpu debugger address
      (toI16 value) cycleCounter info m hd ⟨w, hw, by simp [matchCondition, h1, h2]⟩
  · rintro ⟨w, hw, h1, h2⟩
    exact write_shim_hit_entries (fun t => t.store8) 1 (by decide) R cpu debugger address
      (toI8 value) cycleCounter info m hd ⟨w, hw, by simp [matchCondition, h1, h2]⟩
  · intro h
    have hneg := (toI16_neg_iff value).2 h
    have hr := toI16_range value
    have e := toU32_of_neg (toI16 value) (by omega) hneg
    exact ⟨e, by omega⟩
  · intro h
    have hr := toI16_range value
    have hn : ¬ toI16 value < 0 := fun hc => by
      have := (toI16_neg_iff value).1 hc
      omega
    exact toU32_of_nonneg (toI16 value) (by omega) (by omega)
  · intro h
    have hneg := (toI8_neg_iff value).2 h
    have hr := toI8_range value
    have e := toU32_of_neg (toI8 value) (by omega) hneg
    exact ⟨e, by omega⟩
  · intro h
    have hr := toI8_range value
    have hn : ¬ toI8 value < 0 := fun hc => by
      have := (toI8_neg_iff value).1 hc
      omega
    exact toU32_of_nonneg (toI8 value) (by omega) (by omega)
  · rw [toU32_cast]
    exact toI32_modEq value

/-- C17, at the input of the example: a 1-byte store of `0xFF` at a watched
address reports `newValue = 0xFFFFFFFF`. -/
theorem narrow_store_new_value_witness :
    FIND_DEBUGGER (toyCore [⟨0x3000, WATCHPOINT_WRITE⟩]) = some 2 ∧
    ∃ oldValue watchType,
      (DebuggerShim_store8 toyRoutines (toyCore [⟨0x3000, WATCHPOINT_WRITE⟩]) 0x3000 0xFF 5
          toyInfo toyStart).map (fun r => entriesOf r.trace) =
        some ([] ++
          [(2, DEBUGGER_ENTER_WATCHPOINT,
            { address := 0x3000
              oldValue := oldValue
              newValue := 0xFFFFFFFF
              watchType := watchType
              accessType := WATCHPOINT_WRITE })]) :=
  ⟨by decide,
   (narrow_store_new_value toyRoutines (toyCore [⟨0x3000, WATCHPOINT_WRITE⟩]) 2 0x3000 5 0xFF
      toyInfo toyStart (by decide)).2.2.1 ⟨⟨0x3000, WATCHPOINT_WRITE⟩, by decide, by decide⟩⟩

/-! ## C18 -/

/-- C18: `DebuggerRemoveMemoryShim` is idempotent and writes the nine operation
bindings only.  Removing twice gives the state removing once gives; remove
leaves every object (the debugger with its `originalMemory` and watchpoint list
among them), the component array and the other fields of `cpu->memory` as they
are; each of the nine bindings becomes the binding of the same name in
`originalMemory`. -/
theorem remove_idempotent (cpu : ARMCore ρ) (debugger : Nat) :
    DebuggerRemoveMemoryShim (DebuggerRemoveMemoryShim cpu debugger) debugger =
      DebuggerRemoveMemoryShim cpu debugger ∧
    (DebuggerRemoveMemoryShim cpu debugger).object = cpu.object ∧
    (DebuggerRemoveMemoryShim cpu debugger).components = cpu.components ∧
    (DebuggerRemoveMemoryShim cpu debugger).memory.rest = cpu.memory.rest ∧
    (DebuggerRemoveMemoryShim cpu debugger).memory.load32 =
      (cpu.object debugger).originalMemory.load32 ∧
    (DebuggerRemoveMemoryShim cpu debugger).memory.load16 =
      (cpu.object debugger).originalMemory.load16 ∧
    (DebuggerRemoveMemoryShim cpu debugger).memory.load8 =
      (cpu.object debugger).originalMemory.load8 ∧
    (DebuggerRemoveMemoryShim cpu debugger).memory.store32 =
      (cpu.object debugger).originalMemory.store32 ∧
    (DebuggerRemoveMemoryShim cpu debugger).memory.store16 =
      (cpu.object debugger).originalMemory.store16 ∧
    (DebuggerRemoveMemoryShim cpu debugger).memory.store8 =
      (cpu.object debugger).originalMemory.store8 ∧
    (DebuggerRemoveMemoryShim cpu debugger).memory.loadMultiple =
      (cpu.object debugger).originalMemory.loadMultiple ∧
    (DebuggerRemoveMemoryShim cpu debugger).memory.storeMultiple =
      (cpu.object debugger).originalMemory.storeMultiple ∧
    (DebuggerRemoveMemoryShim cpu debugger).memory.setActiveRegion =
      (cpu.object debugger).originalMemory.setActiveRegion := by
  refine ⟨?_, ?_, ?_, ?_, ?_, ?_, ?_, ?_, ?_, ?_, ?_, ?_, ?_⟩ <;> rfl

end MemoryDebugger
